import Mathlib

/-!
# oclptx: the per-device particle handler (`src/oclptxhandler.cc`)

A shallow embedding of `OclPtxHandler` and of the functions around it.

Conventions of the embedding:
* machine integers (`int`, `size_t`, `cl_uint`, `cl_ushort`) are `Nat`; the statements are
  about runs without integer overflow, `/` and `%` are the truncating C operators on
  non-negative operands;
* `cl_int` status codes are `Int`; an operation that talks to the device takes `dev_ret`,
  the status each of its device calls returns, and ends in an `Except`: `ok` with the state
  after the call, or `error` with the way the process was ended;
* `cl_float` is a type parameter `R`: the host code only copies such values, writes the
  constant `0.` and prints them with `%f`;
* `sizeof(struct particle_data)` is a parameter (`sizeof_particle_data`): the declaration of
  the record is in a header that is not part of the sources at hand; the other `sizeof`s are
  fixed by OpenCL (`cl_short`, `cl_ushort`: 2, `cl_int`: 4, `cl_float4`: 16).
-/

namespace OclPtx

/-! ## Configuration records -/

/-- The fields of `struct OclPtxHandler::particle_attrs` that the handler reads or writes
(the two `float` fields, curvature threshold and step length, are only forwarded to the
device and are left out). -/
structure particle_attrs where
  steps_per_kernel : Nat
  max_steps : Nat
  particles_per_side : Nat
  sample_nx : Nat
  sample_ny : Nat
  sample_nz : Nat
  num_samples : Nat
  n_waypoint_masks : Nat
  lx : Nat
  ly : Nat
  lz : Nat
  num_wg : Nat
deriving DecidableEq, Repr

/-- The fields of `EnvironmentData` that the handler reads. -/
structure EnvironmentData where
  n_waypts : Nat
  save_paths : Bool
  exclusion_mask : Bool
  loopcheck : Bool
  dynamic_mem_left : Nat
deriving DecidableEq, Repr

/-! ## Sizes -/

/-- Loop computing the least `k` with `n ≤ 2 ^ k`, starting the search at `k`. -/
def ceil_log2_from : Nat → Nat → Nat → Nat
  | 0, k, _ => k
  | fuel + 1, k, n => if n ≤ 2 ^ k then k else ceil_log2_from fuel (k + 1) n

/-- The value of `ceil(log2(n))` for an integer `n ≥ 1`. -/
def ceil_log2 (n : Nat) : Nat := ceil_log2_from n 0 n

/-- The raw size computed by the first statement of `rbtree_size`:
`max_steps * 8 + 2 * ceil(log2(max_steps)) * 2 * sizeof(cl_short) + 2 * sizeof(cl_short)`. -/
def rbtree_raw_size (attrs_ : particle_attrs) : Nat :=
  attrs_.max_steps * 8 + 2 * ceil_log2 attrs_.max_steps * 2 * 2 + 2 * 2

/-- The function `rbtree_size`: the raw size, then `size = size - (size - 1) % 16 + 15`. -/
def rbtree_size (attrs_ : particle_attrs) : Nat :=
  let size := rbtree_raw_size attrs_
  size - (size - 1) % 16 + 15

/-- The method `OclPtxHandler::ParticleSize`, as a function of the members it reads. -/
def ParticleSize (sizeof_particle_data : Nat) (attrs_ : particle_attrs) (wg_size_ : Nat)
    (env_dat_ : EnvironmentData) : Nat :=
  let size := 0
  let size := size + sizeof_particle_data
  let size := size + 2
  let size := size + 2
  let size := size + rbtree_size attrs_
  let size := size +
    ((attrs_.sample_nx * attrs_.sample_ny * attrs_.sample_nz / wg_size_ / 2) + 1) * 4
  let size := if env_dat_.save_paths then size + attrs_.steps_per_kernel * 16 else size
  let size := if 0 < env_dat_.n_waypts then size + attrs_.n_waypoint_masks * 2 else size
  let size := if env_dat_.exclusion_mask then size + 2 else size
  let size := if env_dat_.loopcheck then size + attrs_.lx * attrs_.ly * attrs_.lz * 16 else size
  size

/-! ## Process termination -/

/-- OpenCL status codes (`cl_int`). -/
abbrev cl_int := Int

/-- The status `CL_SUCCESS`. -/
def CL_SUCCESS : cl_int := 0

/-- The status `CL_MEM_OBJECT_ALLOCATION_FAILURE`. -/
def CL_MEM_OBJECT_ALLOCATION_FAILURE : cl_int := -4

/-- The ways a handler operation ends the process. -/
inductive Termination where
  /-- After `puts(message)`, the call `exit(status)`. -/
  | exit (message : String) (status : Int)
  /-- After `printf("DIE : %i \n", reason)`, the call `abort()`. -/
  | abort (reason : cl_int)
  /-- A failed `assert`. -/
  | assert_failed
  /-- Use of a buffer pointer that is `NULL`. -/
  | null_buffer
deriving DecidableEq, Repr

/-- The text `die` prints for `CL_MEM_OBJECT_ALLOCATION_FAILURE`. -/
def memrisk_message : String :=
  "Ran out of device memory while allocating particle buffers.  " ++
  "It should be possible to fix this by lowering memrisk " ++
  "(eg --memrisk=.9) and rerunning."

/-- The function `die`. -/
def die (reason : cl_int) : Termination :=
  if CL_MEM_OBJECT_ALLOCATION_FAILURE = reason then
    Termination.exit memrisk_message (-1)
  else
    Termination.abort reason

/-- The test `if (CL_SUCCESS != ret) die(ret);` after a device operation. -/
def dev_check (ret : cl_int) : Except Termination Unit :=
  if CL_SUCCESS ≠ ret then Except.error (die ret) else Except.ok ()

/-! ## Device memory and the handler -/

/-- A `cl_float4`. -/
structure cl_float4 (R : Type) where
  s0 : R
  s1 : R
  s2 : R
  s3 : R

/-- A `struct particle_data`: the handler reads `position` and copies the remaining fields,
which are kept together in `rest`. -/
structure particle_data (R : Type) where
  position : cl_float4 R
  rest : Nat

/-- A `cl::Buffer`: the number of bytes asked for at creation and the contents, indexed by
element (element `i` is at byte `i * sizeof(element)`). -/
structure Buffer (α : Type) where
  size : Nat
  mem : Nat → α

/-- The effect of a successful blocking `enqueueWriteBuffer` of `len` elements of the host
array `src` at element `start`. -/
def Buffer.write {α : Type} (b : Buffer α) (start len : Nat) (src : Nat → α) : Buffer α :=
  { b with mem := fun i => if start ≤ i ∧ i < start + len then src (i - start) else b.mem i }

/-- The host array filled by a successful blocking `enqueueReadBuffer` starting at element
`start` (the host code reads it only below the length it asked for). -/
def Buffer.read {α : Type} (b : Buffer α) (start : Nat) : Nat → α :=
  fun i => b.mem (start + i)

/-- The members of `class OclPtxHandler`. The output file `path_dump_fd_` is the list of the
texts of the `fprintf` calls made on it so far, `none` for `NULL`; an optional buffer is
`none` for `NULL`. -/
structure OclPtxHandler (R : Type) where
  attrs_ : particle_attrs
  wg_size_ : Nat
  first_time_ : Nat
  path_dump_fd_ : Option (List String)
  env_dat_ : EnvironmentData
  gpu_data_ : Buffer (particle_data R)
  gpu_sets_ : Buffer Nat
  gpu_complete_ : Buffer Nat
  gpu_local_pdf_ : Buffer Int
  gpu_path_ : Option (Buffer (cl_float4 R))
  gpu_step_count_ : Buffer Nat
  gpu_waypoints_ : Option (Buffer Nat)
  gpu_exclusion_ : Option (Buffer Nat)
  gpu_loopcheck_ : Option (Buffer (cl_float4 R))
  gpu_global_pdf_ : Buffer Int

/-- The contents of freshly created device buffers, before anything is written to them. -/
structure FreshMemory (R : Type) where
  data : Nat → particle_data R
  sets : Nat → Nat
  complete : Nat → Nat
  local_pdf : Nat → Int
  path : Nat → cl_float4 R
  step_count : Nat → Nat
  waypoints : Nat → Nat
  exclusion : Nat → Nat
  loopcheck : Nat → cl_float4 R

/-- The method `OclPtxHandler::InitParticles`. Here `dev_ret k` is the status returned by the
`k`-th `enqueueWriteBuffer` call site of the method. The `cl::Buffer` constructors are called
without a status argument, and `new` does not return `NULL`, so the tests
`if (!gpu_data_) abort();` never fire; `fresh` gives what the new buffers hold. -/
def InitParticles {R : Type} (sizeof_particle_data : Nat) (fresh : FreshMemory R)
    (h : OclPtxHandler R) (dev_ret : Nat → cl_int) : Except Termination (OclPtxHandler R) := do
  let h := { h with gpu_data_ :=
    { size := 2 * h.attrs_.particles_per_side * sizeof_particle_data, mem := fresh.data } }
  let h := { h with gpu_sets_ :=
    { size := 2 * h.attrs_.particles_per_side * rbtree_size h.attrs_, mem := fresh.sets } }
  let h := { h with gpu_complete_ :=
    { size := 2 * h.attrs_.particles_per_side * 2, mem := fresh.complete } }
  let local_pdf_size :=
    h.attrs_.sample_nx * h.attrs_.sample_ny * h.attrs_.sample_nz * h.attrs_.num_wg
  let h := { h with gpu_local_pdf_ := { size := local_pdf_size * 4, mem := fresh.local_pdf } }
  let h := { h with gpu_path_ :=
    (if h.env_dat_.save_paths then
       some (Buffer.mk
         (2 * h.attrs_.particles_per_side * h.attrs_.steps_per_kernel * 16)
         fresh.path)
     else none) }
  let h := { h with gpu_step_count_ :=
    { size := 2 * h.attrs_.particles_per_side * 2, mem := fresh.step_count } }
  let h := { h with gpu_waypoints_ :=
    (if 0 < h.env_dat_.n_waypts then
       some (Buffer.mk
         (2 * h.attrs_.particles_per_side * h.attrs_.n_waypoint_masks * 2)
         fresh.waypoints)
     else none) }
  let h := { h with gpu_exclusion_ :=
    (if h.env_dat_.exclusion_mask then
       some (Buffer.mk
         (2 * h.attrs_.particles_per_side * 2)
         fresh.exclusion)
     else none) }
  let h := { h with gpu_loopcheck_ :=
    (if h.env_dat_.loopcheck then
       some (Buffer.mk
         (2 * h.attrs_.particles_per_side * h.attrs_.lx * h.attrs_.ly * h.attrs_.lz * 16)
         fresh.loopcheck)
     else none) }
  -- Initialize "completion" buffer: every entry is 8 (BREAK_INIT).
  dev_check (dev_ret 0)
  let h := { h with gpu_complete_ :=
    h.gpu_complete_.write 0 (2 * h.attrs_.particles_per_side) (fun _ => 8) }
  -- Initialize "local_pdfs" buffer.
  dev_check (dev_ret 1)
  let h := { h with gpu_local_pdf_ := h.gpu_local_pdf_.write 0 local_pdf_size (fun _ => 0) }
  pure h

/-- The method `OclPtxHandler::Init` (the context, the command queue and the two kernels are
handles that the embedding does not represent). -/
def Init {R : Type} (sizeof_particle_data : Nat) (fresh : FreshMemory R) (h : OclPtxHandler R)
    (dev_ret : Nat → cl_int) (attrs : particle_attrs) (path_dump_fd : Option (List String))
    (wg_size : Nat) (env_dat : EnvironmentData) (global_pdf : Buffer Int) :
    Except Termination (OclPtxHandler R) :=
  let h := { h with first_time_ := 1 }
  let h := { h with path_dump_fd_ := path_dump_fd }
  let h := { h with env_dat_ := env_dat }
  let h := { h with attrs_ := attrs }
  let h := { h with gpu_global_pdf_ := global_pdf }
  let h := { h with wg_size_ := wg_size }
  let max_particles :=
    h.env_dat_.dynamic_mem_left / ParticleSize sizeof_particle_data h.attrs_ h.wg_size_ h.env_dat_
  let h := { h with attrs_ := { h.attrs_ with num_wg := max_particles / h.wg_size_ / 2 } }
  let h := { h with attrs_ :=
    { h.attrs_ with particles_per_side := h.wg_size_ * h.attrs_.num_wg } }
  if ¬ h.attrs_.particles_per_side ≤ max_particles then
    Except.error Termination.assert_failed
  else
    InitParticles sizeof_particle_data fresh h dev_ret

/-! ## Operations of the handler -/

/-- The text written by `fprintf(path_dump_fd_, "%i:%f,%f,%fn\n", offset, ...)` in
`WriteParticle`; `showf` is the rendering of a float by `%f`. -/
def seed_line {R : Type} (showf : R → String) (offset : Nat) (position : cl_float4 R) : String :=
  toString offset ++ ":" ++ showf position.s0 ++ "," ++ showf position.s1 ++ ","
    ++ showf position.s2 ++ "n\n"

/-- The text written by `fprintf(path_dump_fd_, "%i:%f,%f,%f\n", id + offset, ...)` in
`DumpPath`. -/
def path_line {R : Type} (showf : R → String) (slot : Nat) (value : cl_float4 R) : String :=
  toString slot ++ ":" ++ showf value.s0 ++ "," ++ showf value.s1 ++ ","
    ++ showf value.s2 ++ "\n"

/-- The value `zero_f4` of `WriteParticle`. -/
def zero_f4 {R : Type} [Zero R] : cl_float4 R := ⟨0, 0, 0, 0⟩

/-- The method `OclPtxHandler::WriteParticle`. Here `dev_ret k` is the status returned by the
`k`-th `enqueueWriteBuffer` call site of the method (0: particle data, 1: completion code,
2: step count, 3: loopcheck, 4: waypoints, 5: exclusion). -/
def WriteParticle {R : Type} [Zero R] (showf : R → String) (h : OclPtxHandler R)
    (dev_ret : Nat → cl_int) (data : particle_data R) (offset : Nat) :
    Except Termination (OclPtxHandler R) := do
  let zero_ : Nat := 0
  if ¬ offset < 2 * h.attrs_.particles_per_side then
    throw Termination.assert_failed
  let h := { h with path_dump_fd_ :=
    h.path_dump_fd_.map (fun out => out ++ [seed_line showf offset data.position]) }
  -- Write particle_data
  dev_check (dev_ret 0)
  let h := { h with gpu_data_ := h.gpu_data_.write offset 1 (fun _ => data) }
  -- gpu_complete_ = 0
  dev_check (dev_ret 1)
  let h := { h with gpu_complete_ := h.gpu_complete_.write offset 1 (fun _ => zero_) }
  -- step_count = 0
  dev_check (dev_ret 2)
  let h := { h with gpu_step_count_ := h.gpu_step_count_.write offset 1 (fun _ => zero_) }
  -- Initialize particle loopcheck
  let h ← match h.gpu_loopcheck_ with
    | none => pure h
    | some gpu_loopcheck => do
      let loopcheck_entries_per_particle := h.attrs_.lx * h.attrs_.ly * h.attrs_.lz
      dev_check (dev_ret 3)
      pure { h with gpu_loopcheck_ := some (gpu_loopcheck.write
        (offset * loopcheck_entries_per_particle) loopcheck_entries_per_particle
        (fun _ => zero_f4)) }
  let h ← match h.gpu_waypoints_ with
    | none => pure h
    | some gpu_waypoints => do
      dev_check (dev_ret 4)
      pure { h with gpu_waypoints_ := some (gpu_waypoints.write
        (offset * h.attrs_.n_waypoint_masks) h.attrs_.n_waypoint_masks (fun _ => 0)) }
  match h.gpu_exclusion_ with
    | none => pure h
    | some gpu_exclusion => do
      let temp_zero : Nat := 0
      dev_check (dev_ret 5)
      pure { h with gpu_exclusion_ := some (gpu_exclusion.write offset 1 (fun _ => temp_zero)) }

/-- The method `OclPtxHandler::RunInterpKernel`. The kernel is not part of the host code:
`ptx_kernel h global_offset` is the handler with the device memory the run leaves behind.
`dev_ret 0` is the status of `enqueueNDRangeKernel`, `dev_ret 1` that of `finish`; the
statuses of the `setArg` calls are not looked at by the code. -/
def RunInterpKernel {R : Type} (ptx_kernel : OclPtxHandler R → Nat → OclPtxHandler R)
    (h : OclPtxHandler R) (dev_ret : Nat → cl_int) (side : Nat) :
    Except Termination (OclPtxHandler R) := do
  let particle_offset := h.attrs_.particles_per_side * side
  dev_check (dev_ret 0)
  dev_check (dev_ret 1)
  pure (ptx_kernel h particle_offset)

/-- The method `OclPtxHandler::RunSumKernel`, with `sum_kernel h` the handler with the device
memory the run of the reduction kernel leaves behind. -/
def RunSumKernel {R : Type} (sum_kernel : OclPtxHandler R → OclPtxHandler R)
    (h : OclPtxHandler R) (dev_ret : Nat → cl_int) : Except Termination (OclPtxHandler R) := do
  dev_check (dev_ret 0)
  dev_check (dev_ret 1)
  pure (sum_kernel h)

/-- The method `OclPtxHandler::RunKernel`. -/
def RunKernel {R : Type} (ptx_kernel : OclPtxHandler R → Nat → OclPtxHandler R)
    (h : OclPtxHandler R) (dev_ret : Nat → cl_int) (side : Nat) :
    Except Termination (OclPtxHandler R) :=
  RunInterpKernel ptx_kernel h dev_ret side

/-- The method `OclPtxHandler::ReadStatus`: the result is the host array `ret` after the call. -/
def ReadStatus {R : Type} (h : OclPtxHandler R) (dev_ret : Nat → cl_int) (offset count : Nat)
    (ret : Nat → Nat) : Except Termination (Nat → Nat) := do
  dev_check (dev_ret 0)
  pure (fun i => if i < count then h.gpu_complete_.read offset i else ret i)

/-- The loop over `step` in `DumpPath` for one `id`: the texts written, in order. -/
def DumpPath_slot {R : Type} (showf : R → String) (steps_per_kernel offset : Nat)
    (path_buf : Nat → cl_float4 R) (step_count_buf : Nat → Nat) (id : Nat) : List String :=
  (List.range steps_per_kernel).filterMap fun step =>
    let value := path_buf (id * steps_per_kernel + step)
    -- Only dump if this element is before the path's end.
    if (0 = step_count_buf id % steps_per_kernel ∧ 0 ≠ step_count_buf id)
        ∨ step < step_count_buf id % steps_per_kernel then
      some (path_line showf (id + offset) value)
    else none

/-- The two nested loops of `DumpPath` ("Now dumpify"): the texts written, in order. -/
def DumpPath_loop {R : Type} (showf : R → String) (steps_per_kernel offset count : Nat)
    (path_buf : Nat → cl_float4 R) (step_count_buf : Nat → Nat) : List String :=
  (List.range count).flatMap
    (DumpPath_slot showf steps_per_kernel offset path_buf step_count_buf)

/-- The method `OclPtxHandler::DumpPath`. Here `dev_ret 0` is the status of the read-back of
the paths and `dev_ret 1` that of the step counts. -/
def DumpPath {R : Type} (showf : R → String) (h : OclPtxHandler R) (dev_ret : Nat → cl_int)
    (offset count : Nat) : Except Termination (OclPtxHandler R) := do
  if ¬ h.env_dat_.save_paths then
    return h
  match h.path_dump_fd_ with
  | none => throw Termination.assert_failed
  | some fd =>
    if h.first_time_ ≠ 0 then
      return { h with first_time_ := 0 }
    match h.gpu_path_ with
    | none => throw Termination.null_buffer
    | some gpu_path =>
      dev_check (dev_ret 0)
      let path_buf := gpu_path.read (offset * h.attrs_.steps_per_kernel)
      dev_check (dev_ret 1)
      let step_count_buf := h.gpu_step_count_.read offset
      -- Now dumpify.
      return { h with path_dump_fd_ := some (fd ++
        DumpPath_loop showf h.attrs_.steps_per_kernel offset count path_buf step_count_buf) }


/-! ## Concrete inputs and the sum listed by the spec -/

/-- The attributes `main` builds (`kStepsPerKernel = 10`, `max_steps = 10`, one sample, no
waypoint mask) for a volume of 4 x 4 x 4 voxels. -/
def scenario_attrs : particle_attrs :=
  { steps_per_kernel := 10, max_steps := 10, particles_per_side := 0,
    sample_nx := 4, sample_ny := 4, sample_nz := 4, num_samples := 1,
    n_waypoint_masks := 0, lx := 0, ly := 0, lz := 0, num_wg := 0 }

/-- An environment with path dumping enabled, loop-check, waypoints and exclusion mask
disabled, and 100000 bytes of device memory left. -/
def scenario_env : EnvironmentData :=
  { n_waypts := 0, save_paths := true, exclusion_mask := false, loopcheck := false,
    dynamic_mem_left := 100000 }

/-- Device memory filled with zeros. -/
def zero_memory : FreshMemory Int :=
  { data := fun _ => ⟨⟨0, 0, 0, 0⟩, 0⟩, sets := fun _ => 0, complete := fun _ => 0,
    local_pdf := fun _ => 0, path := fun _ => ⟨0, 0, 0, 0⟩, step_count := fun _ => 0,
    waypoints := fun _ => 0, exclusion := fun _ => 0, loopcheck := fun _ => ⟨0, 0, 0, 0⟩ }

/-- A handler object on which no method has been called yet. -/
def blank_handler : OclPtxHandler Int :=
  { attrs_ := scenario_attrs, wg_size_ := 0, first_time_ := 0, path_dump_fd_ := none,
    env_dat_ := scenario_env, gpu_data_ := ⟨0, zero_memory.data⟩, gpu_sets_ := ⟨0, fun _ => 0⟩,
    gpu_complete_ := ⟨0, fun _ => 0⟩, gpu_local_pdf_ := ⟨0, fun _ => 0⟩, gpu_path_ := none,
    gpu_step_count_ := ⟨0, fun _ => 0⟩, gpu_waypoints_ := none, gpu_exclusion_ := none,
    gpu_loopcheck_ := none, gpu_global_pdf_ := ⟨0, fun _ => 0⟩ }

/-- The rendering by `%f` of a float whose value is the whole number `x`. -/
def show_whole (x : Int) : String := toString x ++ ".000000"

/-- Attributes with three waypoint masks and a loop-check grid of 2 x 2 x 2. -/
def full_attrs : particle_attrs :=
  { scenario_attrs with n_waypoint_masks := 3, lx := 2, ly := 2, lz := 2 }

/-- An environment with every optional feature enabled. -/
def full_env : EnvironmentData :=
  { n_waypts := 3, save_paths := true, exclusion_mask := true, loopcheck := true,
    dynamic_mem_left := 100000 }

/-- Device memory holding something else than zeros everywhere. -/
def stale_memory : FreshMemory Int :=
  { data := fun _ => ⟨⟨7, 7, 7, 7⟩, 7⟩, sets := fun _ => 7, complete := fun _ => 7,
    local_pdf := fun _ => 7, path := fun i => ⟨i, i + 1, i + 2, 7⟩, step_count := fun _ => 7,
    waypoints := fun _ => 7, exclusion := fun _ => 7, loopcheck := fun _ => ⟨7, 7, 7, 7⟩ }

/-- The handler `Init` returns for `full_attrs`, `full_env`, a workgroup size of 2, an empty
output file and `stale_memory`. -/
def full_handler : OclPtxHandler Int :=
  match Init 64 stale_memory blank_handler (fun _ => CL_SUCCESS) full_attrs (some []) 2
      full_env ⟨0, fun _ => 0⟩ with
  | Except.ok h => h
  | Except.error _ => blank_handler

/-- The handler `Init` returns in the scenario of `main`: path dumping only, `max_steps = 10`,
`steps_per_kernel = 10`, a workgroup size of 2 and an empty output file. -/
def scenario_handler : OclPtxHandler Int :=
  match Init 64 stale_memory blank_handler (fun _ => CL_SUCCESS) scenario_attrs (some []) 2
      scenario_env ⟨0, fun _ => 0⟩ with
  | Except.ok h => h
  | Except.error _ => blank_handler

/-- The scenario handler once the first `DumpPath` call is over and kernel runs have left the
step counters 10 in slot 0 and 3 in slot 1. -/
def scenario_after_run : OclPtxHandler Int :=
  { scenario_handler with
    first_time_ := 0,
    gpu_step_count_ := scenario_handler.gpu_step_count_.write 0 2 (fun i => if i = 0 then 10 else 3) }

/-- A seed record starting at position (1, 2, 3). -/
def seed_record : particle_data Int := ⟨⟨1, 2, 3, 0⟩, 0⟩

/-- Following the spec's words: the number of positions to write for a slot whose step counter
is `c`, all `s` of them when `c` is a nonzero multiple of `s`, and `c mod s` otherwise. -/
def kept_positions (s c : Nat) : Nat :=
  if c % s = 0 ∧ c ≠ 0 then s else c % s

/-- The optional buffers are there exactly when their feature is enabled, as `InitParticles`
leaves them. -/
def optional_buffers_allocated {R : Type} (h : OclPtxHandler R) : Prop :=
  h.gpu_path_.isSome = h.env_dat_.save_paths
    ∧ h.gpu_waypoints_.isSome = decide (0 < h.env_dat_.n_waypts)
    ∧ h.gpu_exclusion_.isSome = h.env_dat_.exclusion_mask
    ∧ h.gpu_loopcheck_.isSome = h.env_dat_.loopcheck

/-- Following the spec's words: the sum the spec lists for the per-particle footprint, the
fixed record, the completion code, the step counter, the visited set and the enabled
optional terms. -/
def footprint_listed (sizeof_particle_data : Nat) (attrs_ : particle_attrs)
    (env_dat_ : EnvironmentData) : Nat :=
  sizeof_particle_data + 2 + 2 + rbtree_size attrs_
    + (if env_dat_.save_paths then attrs_.steps_per_kernel * 16 else 0)
    + (if 0 < env_dat_.n_waypts then attrs_.n_waypoint_masks * 2 else 0)
    + (if env_dat_.exclusion_mask then 2 else 0)
    + (if env_dat_.loopcheck then attrs_.lx * attrs_.ly * attrs_.lz * 16 else 0)


/-- The first status of the list that is not `CL_SUCCESS`, if there is one. -/
def first_failure (statuses : List cl_int) : Option cl_int :=
  statuses.find? (fun ret => decide (CL_SUCCESS ≠ ret))

/-- The statuses of the device operations `WriteParticle` goes through when none of them
fails, in the order of the calls: the three writes every call makes, then one write for each
optional buffer that is there. -/
def WriteParticle_statuses {R : Type} (h : OclPtxHandler R) (dev_ret : Nat → cl_int) :
    List cl_int :=
  [dev_ret 0, dev_ret 1, dev_ret 2]
    ++ (if h.gpu_loopcheck_.isSome then [dev_ret 3] else [])
    ++ (if h.gpu_waypoints_.isSome then [dev_ret 4] else [])
    ++ (if h.gpu_exclusion_.isSome then [dev_ret 5] else [])

/-- The outcome `result` of an operation whose device calls return `statuses`, in order, is
decided by `die`: the first status that is not `CL_SUCCESS` ends the process the way `die`
does for it, and without such a status the operation returns. -/
def fatal_on_first_failure {α : Type} (statuses : List cl_int)
    (result : Except Termination α) : Prop :=
  match first_failure statuses with
  | some ret => result = Except.error (die ret)
  | none => ∃ a, result = Except.ok a
/-! ## Ownership of the device buffers -/

/-- The buffer members of `class OclPtxHandler`. -/
inductive BufferMember where
  | gpu_data_
  | gpu_sets_
  | gpu_complete_
  | gpu_local_pdf_
  | gpu_path_
  | gpu_step_count_
  | gpu_waypoints_
  | gpu_exclusion_
  | gpu_loopcheck_
  | gpu_global_pdf_
deriving DecidableEq, Repr

/-- The members to which `InitParticles` assigns a buffer made with `new cl::Buffer`, in the
order of the statements. -/
def InitParticles_created (env_dat_ : EnvironmentData) : List BufferMember :=
  [BufferMember.gpu_data_, BufferMember.gpu_sets_, BufferMember.gpu_complete_,
    BufferMember.gpu_local_pdf_]
    ++ (if env_dat_.save_paths then [BufferMember.gpu_path_] else [])
    ++ [BufferMember.gpu_step_count_]
    ++ (if 0 < env_dat_.n_waypts then [BufferMember.gpu_waypoints_] else [])
    ++ (if env_dat_.exclusion_mask then [BufferMember.gpu_exclusion_] else [])
    ++ (if env_dat_.loopcheck then [BufferMember.gpu_loopcheck_] else [])

/-- The destructor `OclPtxHandler::~OclPtxHandler`: the members whose buffer it deletes, in
the order of the `delete` statements. -/
def destructor {R : Type} (h : OclPtxHandler R) : List BufferMember :=
  [BufferMember.gpu_data_, BufferMember.gpu_sets_, BufferMember.gpu_complete_,
    BufferMember.gpu_local_pdf_]
    ++ (if h.gpu_waypoints_.isSome then [BufferMember.gpu_waypoints_] else [])
    ++ (if h.gpu_exclusion_.isSome then [BufferMember.gpu_exclusion_] else [])
    ++ (if h.gpu_loopcheck_.isSome then [BufferMember.gpu_loopcheck_] else [])
    -- we let OclEnv delete gpu_global_pdf_

/-- The bytes asked for when an optional buffer was created, 0 for `NULL`. -/
def optional_size {α : Type} (b : Option (Buffer α)) : Nat :=
  match b with
  | none => 0
  | some buffer => buffer.size

/-- The bytes asked for by all the `new cl::Buffer` of `InitParticles` together. -/
def allocated_bytes {R : Type} (h : OclPtxHandler R) : Nat :=
  h.gpu_data_.size + h.gpu_sets_.size + h.gpu_complete_.size + h.gpu_local_pdf_.size
    + optional_size h.gpu_path_ + h.gpu_step_count_.size + optional_size h.gpu_waypoints_
    + optional_size h.gpu_exclusion_ + optional_size h.gpu_loopcheck_

/-! ## Facts about the sizes -/

theorem ceil_log2_from_spec (fuel k n : Nat) (hk : ∀ j, j < k → 2 ^ j < n)
    (hf : n ≤ 2 ^ (k + fuel)) :
    n ≤ 2 ^ ceil_log2_from fuel k n ∧ ∀ j, j < ceil_log2_from fuel k n → 2 ^ j < n := by
  induction fuel generalizing k with
  | zero => exact ⟨by simpa [ceil_log2_from] using hf, by simpa [ceil_log2_from] using hk⟩
  | succ fuel ih =>
    unfold ceil_log2_from
    split_ifs with hle
    · exact ⟨hle, hk⟩
    · apply ih
      · intro j hj
        rcases Nat.lt_succ_iff_lt_or_eq.mp hj with hlt | rfl
        · exact hk j hlt
        · omega
      · have : k + 1 + fuel = k + (fuel + 1) := by omega
        rw [this]; exact hf

theorem ceil_log2_eq_clog (n : Nat) : ceil_log2 n = Nat.clog 2 n := by
  have h := ceil_log2_from_spec n 0 n (by intro j hj; omega)
    (by rw [Nat.zero_add]; exact (Nat.lt_two_pow n).le)
  apply le_antisymm
  · by_contra hlt
    push_neg at hlt
    have h1 := h.2 _ hlt
    have h2 : n ≤ 2 ^ Nat.clog 2 n := Nat.le_pow_clog (by norm_num) n
    unfold ceil_log2 at h1
    omega
  · exact (Nat.le_pow_iff_clog_le (by norm_num)).mp h.1

theorem ceil_log2_mono {m n : Nat} (h : m ≤ n) : ceil_log2 m ≤ ceil_log2 n := by
  rw [ceil_log2_eq_clog, ceil_log2_eq_clog]
  exact Nat.clog_mono_right 2 h

theorem rbtree_raw_size_pos (attrs_ : particle_attrs) : 4 ≤ rbtree_raw_size attrs_ := by
  unfold rbtree_raw_size; omega

theorem rbtree_size_pos (attrs_ : particle_attrs) : 16 ≤ rbtree_size attrs_ := by
  have h := rbtree_raw_size_pos attrs_
  simp only [rbtree_size]
  omega

theorem ParticleSize_pos (sizeof_particle_data : Nat) (attrs_ : particle_attrs) (wg_size_ : Nat)
    (env_dat_ : EnvironmentData) : 1 ≤ ParticleSize sizeof_particle_data attrs_ wg_size_ env_dat_ := by
  simp only [ParticleSize]
  split_ifs <;> omega

/-- The footprint does not depend on the two members that `Init` computes. -/
theorem ParticleSize_sizing (sizeof_particle_data : Nat) (attrs_ : particle_attrs)
    (wg_size_ : Nat) (env_dat_ : EnvironmentData) (n p : Nat) :
    ParticleSize sizeof_particle_data { attrs_ with num_wg := n, particles_per_side := p }
      wg_size_ env_dat_ = ParticleSize sizeof_particle_data attrs_ wg_size_ env_dat_ := by
  simp only [ParticleSize, rbtree_size, rbtree_raw_size]

/-- With every device operation succeeding, `Init` returns, and the sizing members of the
result are the ones computed from the budget and the footprint. -/
theorem Init_ok {R : Type} (sizeof_particle_data : Nat) (fresh : FreshMemory R)
    (h : OclPtxHandler R) (dev_ret : Nat → cl_int) (attrs : particle_attrs)
    (path_dump_fd : Option (List String)) (wg_size : Nat) (env_dat : EnvironmentData)
    (global_pdf : Buffer Int) (hdev : ∀ k, dev_ret k = CL_SUCCESS) :
    ∃ h', Init sizeof_particle_data fresh h dev_ret attrs path_dump_fd wg_size env_dat
        global_pdf = Except.ok h'
      ∧ h'.attrs_ = { attrs with
          num_wg := env_dat.dynamic_mem_left
            / ParticleSize sizeof_particle_data attrs wg_size env_dat / wg_size / 2,
          particles_per_side := wg_size * (env_dat.dynamic_mem_left
            / ParticleSize sizeof_particle_data attrs wg_size env_dat / wg_size / 2) }
      ∧ h'.wg_size_ = wg_size ∧ h'.env_dat_ = env_dat ∧ h'.first_time_ = 1
      ∧ h'.path_dump_fd_ = path_dump_fd := by
  have hle : wg_size * (env_dat.dynamic_mem_left
      / ParticleSize sizeof_particle_data attrs wg_size env_dat / wg_size / 2)
      ≤ env_dat.dynamic_mem_left / ParticleSize sizeof_particle_data attrs wg_size env_dat := by
    calc wg_size * (env_dat.dynamic_mem_left
            / ParticleSize sizeof_particle_data attrs wg_size env_dat / wg_size / 2)
        ≤ wg_size * (env_dat.dynamic_mem_left
            / ParticleSize sizeof_particle_data attrs wg_size env_dat / wg_size) :=
          Nat.mul_le_mul_left _ (Nat.div_le_self _ _)
      _ ≤ _ := Nat.mul_div_le _ _
  simp [Init, InitParticles, dev_check, hdev, hle, bind, Except.bind, pure, Except.pure]


theorem budget_arith (B F w : Nat) : 2 * (w * (B / F / w / 2)) * F ≤ B := by
  have h1 : 2 * (B / F / w / 2) ≤ B / F / w := Nat.mul_div_le _ _
  have h2 : w * (B / F / w) ≤ B / F := Nat.mul_div_le _ _
  have h3 : B / F * F ≤ B := Nat.div_mul_le_self _ _
  calc 2 * (w * (B / F / w / 2)) * F = w * (2 * (B / F / w / 2)) * F := by ring
    _ ≤ w * (B / F / w) * F := Nat.mul_le_mul_right _ (Nat.mul_le_mul_left _ h1)
    _ ≤ B / F * F := Nat.mul_le_mul_right _ h2
    _ ≤ B := h3

/-- C1: for every budget, workgroup size `w ≥ 1` and configuration, when the device
operations succeed `Init` returns a handler whose `particles_per_side` is
`w * (B / F / w / 2)` for the footprint `F = ParticleSize()`, and
`2 * particles_per_side * F ≤ B`. -/
theorem C1_budget_covers_both_banks {R : Type} (sizeof_particle_data : Nat)
    (fresh : FreshMemory R) (h : OclPtxHandler R) (dev_ret : Nat → cl_int)
    (attrs : particle_attrs) (path_dump_fd : Option (List String)) (wg_size : Nat)
    (env_dat : EnvironmentData) (global_pdf : Buffer Int) (_hw : 1 ≤ wg_size)
    (hdev : ∀ k, dev_ret k = CL_SUCCESS) :
    ∃ h', Init sizeof_particle_data fresh h dev_ret attrs path_dump_fd wg_size env_dat
        global_pdf = Except.ok h'
      ∧ h'.attrs_.num_wg = env_dat.dynamic_mem_left
          / ParticleSize sizeof_particle_data attrs wg_size env_dat / wg_size / 2
      ∧ h'.attrs_.particles_per_side = wg_size * h'.attrs_.num_wg
      ∧ ParticleSize sizeof_particle_data h'.attrs_ h'.wg_size_ h'.env_dat_
          = ParticleSize sizeof_particle_data attrs wg_size env_dat
      ∧ 2 * h'.attrs_.particles_per_side
          * ParticleSize sizeof_particle_data h'.attrs_ h'.wg_size_ h'.env_dat_
          ≤ env_dat.dynamic_mem_left := by
  obtain ⟨h', hI, ha, hwg, he, _, _⟩ := Init_ok sizeof_particle_data fresh h dev_ret attrs
    path_dump_fd wg_size env_dat global_pdf hdev
  have hF : ParticleSize sizeof_particle_data h'.attrs_ h'.wg_size_ h'.env_dat_
      = ParticleSize sizeof_particle_data attrs wg_size env_dat := by
    rw [ha, hwg, he]; exact ParticleSize_sizing _ _ _ _ _ _
  refine ⟨h', hI, by rw [ha], by rw [ha], hF, ?_⟩
  rw [hF, ha]
  exact budget_arith _ _ _

theorem C1_budget_covers_both_banks_witness :
    1 ≤ 2 ∧ (∀ k : Nat, (fun _ => CL_SUCCESS) k = CL_SUCCESS) ∧
    ∃ h', Init 64 zero_memory blank_handler (fun _ => CL_SUCCESS) scenario_attrs (some [])
        2 scenario_env ⟨0, fun _ => 0⟩ = Except.ok h'
      ∧ h'.attrs_.num_wg = scenario_env.dynamic_mem_left
          / ParticleSize 64 scenario_attrs 2 scenario_env / 2 / 2
      ∧ h'.attrs_.particles_per_side = 2 * h'.attrs_.num_wg
      ∧ ParticleSize 64 h'.attrs_ h'.wg_size_ h'.env_dat_
          = ParticleSize 64 scenario_attrs 2 scenario_env
      ∧ 2 * h'.attrs_.particles_per_side * ParticleSize 64 h'.attrs_ h'.wg_size_ h'.env_dat_
          ≤ scenario_env.dynamic_mem_left :=
  ⟨by decide, fun _ => rfl,
    C1_budget_covers_both_banks 64 zero_memory blank_handler (fun _ => CL_SUCCESS)
      scenario_attrs (some []) 2 scenario_env ⟨0, fun _ => 0⟩ (by decide) (fun _ => rfl)⟩


/-- C2, as stated, fails: for the attributes of `main`, a record of 64 bytes and a workgroup
of 2, `ParticleSize` is 424 while the sum the spec lists is 356. -/
theorem C2_listed_sum_counterexample :
    ParticleSize 64 scenario_attrs 2 scenario_env = 424
      ∧ footprint_listed 64 scenario_attrs scenario_env = 356
      ∧ ParticleSize 64 scenario_attrs 2 scenario_env
          ≠ footprint_listed 64 scenario_attrs scenario_env := by
  decide

/-- C2, amended: the footprint returned by `ParticleSize` is the sum the spec lists plus the
share of the per-workgroup density accumulator,
`((sample_nx * sample_ny * sample_nz / wg_size / 2) + 1) * 4` bytes. -/
theorem C2_footprint_sum (sizeof_particle_data : Nat) (attrs_ : particle_attrs)
    (wg_size_ : Nat) (env_dat_ : EnvironmentData) :
    ParticleSize sizeof_particle_data attrs_ wg_size_ env_dat_
      = sizeof_particle_data + 2 + 2 + rbtree_size attrs_
        + ((attrs_.sample_nx * attrs_.sample_ny * attrs_.sample_nz / wg_size_ / 2) + 1) * 4
        + (if env_dat_.save_paths then attrs_.steps_per_kernel * 16 else 0)
        + (if 0 < env_dat_.n_waypts then attrs_.n_waypoint_masks * 2 else 0)
        + (if env_dat_.exclusion_mask then 2 else 0)
        + (if env_dat_.loopcheck then attrs_.lx * attrs_.ly * attrs_.lz * 16 else 0)
      ∧ ParticleSize sizeof_particle_data attrs_ wg_size_ env_dat_
        = footprint_listed sizeof_particle_data attrs_ env_dat_
          + ((attrs_.sample_nx * attrs_.sample_ny * attrs_.sample_nz / wg_size_ / 2) + 1) * 4 := by
  simp only [ParticleSize, footprint_listed]
  split_ifs <;> omega

theorem rbtree_raw_size_step (attrs_ : particle_attrs) (m1 m2 : Nat) (h : m1 ≤ m2) :
    rbtree_raw_size { attrs_ with max_steps := m1 } + 8 * (m2 - m1)
      ≤ rbtree_raw_size { attrs_ with max_steps := m2 } := by
  have hc := ceil_log2_mono h
  simp only [rbtree_raw_size]
  omega

/-- C3, as stated, fails: `max_steps = 5` and `max_steps = 6` give the same footprint (the
raw visited-set sizes 68 and 76 are both rounded up to 80). -/
theorem C3_strict_counterexample :
    rbtree_size { scenario_attrs with max_steps := 5 } = 80
      ∧ rbtree_size { scenario_attrs with max_steps := 6 } = 80
      ∧ ¬ (ParticleSize 64 { scenario_attrs with max_steps := 5 } 2 scenario_env
            < ParticleSize 64 { scenario_attrs with max_steps := 6 } 2 scenario_env) := by
  decide

/-- C3, amended: with everything else fixed the footprint is non-decreasing in `max_steps`,
and for `1 ≤ m1` and `m1 + 2 ≤ m2` it is strictly larger at `m2` than at `m1`. -/
theorem C3_footprint_monotone (sizeof_particle_data : Nat) (attrs_ : particle_attrs)
    (wg_size_ : Nat) (env_dat_ : EnvironmentData) (m1 m2 : Nat) (_h1 : 1 ≤ m1) (h12 : m1 < m2) :
    ParticleSize sizeof_particle_data { attrs_ with max_steps := m1 } wg_size_ env_dat_
        ≤ ParticleSize sizeof_particle_data { attrs_ with max_steps := m2 } wg_size_ env_dat_
      ∧ (m1 + 2 ≤ m2 →
          ParticleSize sizeof_particle_data { attrs_ with max_steps := m1 } wg_size_ env_dat_
            < ParticleSize sizeof_particle_data { attrs_ with max_steps := m2 } wg_size_
                env_dat_) := by
  have hs := rbtree_raw_size_step attrs_ m1 m2 h12.le
  have hp := rbtree_raw_size_pos { attrs_ with max_steps := m1 }
  simp only [ParticleSize, rbtree_size]
  constructor
  · split_ifs <;> omega
  · intro h2
    split_ifs <;> omega


theorem C3_footprint_monotone_witness :
    1 ≤ 5 ∧ 5 < 7 ∧
    (ParticleSize 64 { scenario_attrs with max_steps := 5 } 2 scenario_env
        ≤ ParticleSize 64 { scenario_attrs with max_steps := 7 } 2 scenario_env
      ∧ (5 + 2 ≤ 7 →
          ParticleSize 64 { scenario_attrs with max_steps := 5 } 2 scenario_env
            < ParticleSize 64 { scenario_attrs with max_steps := 7 } 2 scenario_env)) :=
  ⟨by decide, by decide,
    C3_footprint_monotone 64 scenario_attrs 2 scenario_env 5 7 (by decide) (by decide)⟩

/-! ## Dumping paths -/

theorem range_filterMap_lt {β : Type} (g : Nat → β) (n s : Nat) (hn : n ≤ s) :
    (List.range s).filterMap (fun step => if step < n then some (g step) else none)
      = (List.range n).map g := by
  induction s with
  | zero =>
    have : n = 0 := by omega
    subst this; rfl
  | succ s ih =>
    rw [List.range_succ, List.filterMap_append]
    rcases Nat.lt_or_ge n (s + 1) with hlt | hge
    · rw [ih (by omega)]
      have : ¬ s < n := by omega
      simp [this]
    · have hns : n = s + 1 := by omega
      subst hns
      have hall : (List.range s).filterMap (fun step => if step < s + 1 then some (g step) else none)
          = (List.range s).map g := by
        rw [← List.filterMap_eq_map]
        apply List.filterMap_congr
        intro a ha
        have : a < s + 1 := by have := List.mem_range.mp ha; omega
        simp [this]
      rw [hall, List.range_succ, List.map_append]
      simp

/-- The number of positions `DumpPath` keeps for a slot with step counter `c`. -/
theorem DumpPath_slot_eq {R : Type} (showf : R → String) (s offset : Nat)
    (path_buf : Nat → cl_float4 R) (step_count_buf : Nat → Nat) (id : Nat) (hs : 1 ≤ s) :
    DumpPath_slot showf s offset path_buf step_count_buf id
      = (List.range (kept_positions s (step_count_buf id))).map
          (fun step => path_line showf (id + offset) (path_buf (id * s + step))) := by
  unfold DumpPath_slot kept_positions
  have hmod : step_count_buf id % s < s := Nat.mod_lt _ (by omega)
  by_cases hc : step_count_buf id % s = 0 ∧ step_count_buf id ≠ 0
  · rw [if_pos hc, ← List.filterMap_eq_map]
    apply List.filterMap_congr
    intro a _
    have : (0 = step_count_buf id % s ∧ 0 ≠ step_count_buf id) :=
      ⟨hc.1.symm, fun h => hc.2 h.symm⟩
    dsimp only
    rw [if_pos (Or.inl this)]
    rfl
  · rw [if_neg hc, ← range_filterMap_lt _ _ s hmod.le]
    apply List.filterMap_congr
    intro a _
    have : ¬ (0 = step_count_buf id % s ∧ 0 ≠ step_count_buf id) :=
      fun h => hc ⟨h.1.symm, fun h' => h.2 h'.symm⟩
    dsimp only
    by_cases ha : a < step_count_buf id % s
    · rw [if_pos (Or.inr ha), if_pos ha]
    · rw [if_neg (not_or.mpr ⟨this, ha⟩), if_neg ha]

theorem DumpPath_later {R : Type} (showf : R → String) (h : OclPtxHandler R)
    (dev_ret : Nat → cl_int) (offset count : Nat) (fd : List String)
    (gpu_path : Buffer (cl_float4 R)) (hsave : h.env_dat_.save_paths = true)
    (hfd : h.path_dump_fd_ = some fd) (hfirst : h.first_time_ = 0)
    (hpath : h.gpu_path_ = some gpu_path) (h0 : dev_ret 0 = CL_SUCCESS)
    (h1 : dev_ret 1 = CL_SUCCESS) :
    DumpPath showf h dev_ret offset count
      = Except.ok { h with path_dump_fd_ := some (fd ++
          DumpPath_loop showf h.attrs_.steps_per_kernel offset count
            (gpu_path.read (offset * h.attrs_.steps_per_kernel))
            (h.gpu_step_count_.read offset)) } := by
  simp [DumpPath, hsave, hfd, hfirst, hpath, h0, h1, dev_check, bind, Except.bind, pure,
    Except.pure]

theorem DumpPath_first {R : Type} (showf : R → String) (h : OclPtxHandler R)
    (dev_ret : Nat → cl_int) (offset count : Nat) (fd : List String)
    (hsave : h.env_dat_.save_paths = true)
    (hfd : h.path_dump_fd_ = some fd) (hfirst : h.first_time_ ≠ 0) :
    DumpPath showf h dev_ret offset count = Except.ok { h with first_time_ := 0 } := by
  simp [DumpPath, hsave, hfd, hfirst, bind, Except.bind, pure, Except.pure]

theorem DumpPath_disabled {R : Type} (showf : R → String) (h : OclPtxHandler R)
    (dev_ret : Nat → cl_int) (offset count : Nat)
    (hsave : h.env_dat_.save_paths = false) :
    DumpPath showf h dev_ret offset count = Except.ok h := by
  simp [DumpPath, hsave, bind, Except.bind, pure, Except.pure]

theorem DumpPath_no_file {R : Type} (showf : R → String) (h : OclPtxHandler R)
    (dev_ret : Nat → cl_int) (offset count : Nat)
    (hsave : h.env_dat_.save_paths = true) (hfd : h.path_dump_fd_ = none) :
    DumpPath showf h dev_ret offset count = Except.error Termination.assert_failed := by
  simp [DumpPath, hsave, hfd, bind, Except.bind, pure, Except.pure, throw, throwThe,
    MonadExceptOf.throw]


/-- C4: on a call of `DumpPath(offset, count)` after the first one, with path dumping enabled
and the two read-backs succeeding, the texts appended to the output file are, slot after slot
for `id` in `[0, count)`, the first `n` positions of the slot's path fragment in increasing
step order, each tagged with `offset + id`, where `n` is `steps_per_kernel` when the slot's
step counter is a nonzero multiple of it and the counter modulo `steps_per_kernel`
otherwise; with `steps_per_kernel = 10` and a counter of 10 that is 10 texts. -/
theorem C4_later_calls_dump_kept_positions {R : Type} (showf : R → String)
    (h : OclPtxHandler R) (dev_ret : Nat → cl_int) (offset count : Nat) (fd : List String)
    (gpu_path : Buffer (cl_float4 R)) (hsave : h.env_dat_.save_paths = true)
    (hfd : h.path_dump_fd_ = some fd) (hfirst : h.first_time_ = 0)
    (hpath : h.gpu_path_ = some gpu_path) (h0 : dev_ret 0 = CL_SUCCESS)
    (h1 : dev_ret 1 = CL_SUCCESS) (hs : 1 ≤ h.attrs_.steps_per_kernel) :
    DumpPath showf h dev_ret offset count
        = Except.ok { h with path_dump_fd_ := some (fd ++
            (List.range count).flatMap (fun id =>
              (List.range (kept_positions h.attrs_.steps_per_kernel
                  (h.gpu_step_count_.mem (offset + id)))).map
                (fun step => path_line showf (offset + id)
                  (gpu_path.mem ((offset + id) * h.attrs_.steps_per_kernel + step))))) }
      ∧ (∀ id, (DumpPath_slot showf h.attrs_.steps_per_kernel offset
            (gpu_path.read (offset * h.attrs_.steps_per_kernel))
            (h.gpu_step_count_.read offset) id).length
          = kept_positions h.attrs_.steps_per_kernel (h.gpu_step_count_.mem (offset + id)))
      ∧ (∀ id, h.attrs_.steps_per_kernel = 10 → h.gpu_step_count_.mem (offset + id) = 10 →
          (DumpPath_slot showf h.attrs_.steps_per_kernel offset
            (gpu_path.read (offset * h.attrs_.steps_per_kernel))
            (h.gpu_step_count_.read offset) id).length = 10) := by
  have hslot : ∀ id, DumpPath_slot showf h.attrs_.steps_per_kernel offset
      (gpu_path.read (offset * h.attrs_.steps_per_kernel)) (h.gpu_step_count_.read offset) id
      = (List.range (kept_positions h.attrs_.steps_per_kernel
            (h.gpu_step_count_.mem (offset + id)))).map
          (fun step => path_line showf (offset + id)
            (gpu_path.mem ((offset + id) * h.attrs_.steps_per_kernel + step))) := by
    intro id
    rw [DumpPath_slot_eq showf _ offset _ _ id hs]
    simp only [Buffer.read]
    apply List.map_congr_left
    intro step _
    have e1 : id + offset = offset + id := Nat.add_comm _ _
    have e2 : offset * h.attrs_.steps_per_kernel + (id * h.attrs_.steps_per_kernel + step)
        = (offset + id) * h.attrs_.steps_per_kernel + step := by ring
    rw [e1, e2]
  refine ⟨?_, ?_, ?_⟩
  · rw [DumpPath_later showf h dev_ret offset count fd gpu_path hsave hfd hfirst hpath h0 h1]
    unfold DumpPath_loop
    have : DumpPath_slot showf h.attrs_.steps_per_kernel offset
        (gpu_path.read (offset * h.attrs_.steps_per_kernel)) (h.gpu_step_count_.read offset)
        = fun id => (List.range (kept_positions h.attrs_.steps_per_kernel
            (h.gpu_step_count_.mem (offset + id)))).map
          (fun step => path_line showf (offset + id)
            (gpu_path.mem ((offset + id) * h.attrs_.steps_per_kernel + step))) :=
      funext hslot
    rw [this]
  · intro id
    rw [hslot id, List.length_map, List.length_range]
  · intro id hs10 hc10
    rw [hslot id, List.length_map, List.length_range, hs10, hc10]
    rfl

/-- C5: `Init` (device writes succeeding) returns a handler with the first-call flag set;
and on any handler with that flag set, whatever the device buffers hold and whatever
`offset` and `count` are, `DumpPath` leaves the output file as it is: with path dumping
disabled it returns at once, with path dumping enabled and a file attached it returns having
only cleared the flag, so that the next call, no longer suppressed, appends what the dump
loops produce. -/
theorem C5_first_call_writes_nothing {R : Type} (sizeof_particle_data : Nat)
    (fresh : FreshMemory R) (h0 : OclPtxHandler R) (dev_ret0 : Nat → cl_int)
    (attrs : particle_attrs) (path_dump_fd : Option (List String)) (wg_size : Nat)
    (env_dat : EnvironmentData) (global_pdf : Buffer Int)
    (hdev : ∀ k, dev_ret0 k = CL_SUCCESS)
    (showf : R → String) (h : OclPtxHandler R) (hfirst : h.first_time_ = 1)
    (dev_ret : Nat → cl_int) (offset count : Nat) :
    (∃ r, Init sizeof_particle_data fresh h0 dev_ret0 attrs path_dump_fd wg_size env_dat
        global_pdf = Except.ok r ∧ r.first_time_ = 1 ∧ r.path_dump_fd_ = path_dump_fd)
      ∧ (h.env_dat_.save_paths = false → DumpPath showf h dev_ret offset count = Except.ok h)
      ∧ (h.env_dat_.save_paths = true → h.path_dump_fd_ = none →
          DumpPath showf h dev_ret offset count = Except.error Termination.assert_failed)
      ∧ (h.env_dat_.save_paths = true → ∀ fd, h.path_dump_fd_ = some fd →
          DumpPath showf h dev_ret offset count = Except.ok { h with first_time_ := 0 }
          ∧ ({ h with first_time_ := 0 } : OclPtxHandler R).path_dump_fd_ = some fd
          ∧ ∀ gpu_path dev_ret2 offset2 count2, h.gpu_path_ = some gpu_path →
              dev_ret2 0 = CL_SUCCESS → dev_ret2 1 = CL_SUCCESS →
              DumpPath showf { h with first_time_ := 0 } dev_ret2 offset2 count2
                = Except.ok { h with
                    first_time_ := 0,
                    path_dump_fd_ := some (fd ++
                      DumpPath_loop showf h.attrs_.steps_per_kernel offset2 count2
                        (gpu_path.read (offset2 * h.attrs_.steps_per_kernel))
                        (h.gpu_step_count_.read offset2)) }) := by
  refine ⟨?_, ?_, ?_, ?_⟩
  · obtain ⟨r, hI, _, _, _, hf, hp⟩ := Init_ok sizeof_particle_data fresh h0 dev_ret0 attrs
      path_dump_fd wg_size env_dat global_pdf hdev
    exact ⟨r, hI, hf, hp⟩
  · exact DumpPath_disabled showf h dev_ret offset count
  · exact DumpPath_no_file showf h dev_ret offset count
  · intro hsave fd hfd
    refine ⟨DumpPath_first showf h dev_ret offset count fd hsave hfd (by omega), hfd, ?_⟩
    intro gpu_path dev_ret2 offset2 count2 hpath h20 h21
    exact DumpPath_later showf { h with first_time_ := 0 } dev_ret2 offset2 count2 fd gpu_path
      hsave hfd rfl hpath h20 h21


theorem C4_later_calls_dump_kept_positions_witness :
    scenario_after_run.env_dat_.save_paths = true
      ∧ scenario_after_run.path_dump_fd_ = some []
      ∧ scenario_after_run.first_time_ = 0
      ∧ scenario_after_run.gpu_path_ = some ⟨37120, stale_memory.path⟩
      ∧ 1 ≤ scenario_after_run.attrs_.steps_per_kernel
      ∧ scenario_after_run.attrs_.max_steps = 10
      ∧ scenario_after_run.attrs_.steps_per_kernel = 10
      ∧ scenario_after_run.gpu_step_count_.mem 0 = 10
      ∧ (∃ r, DumpPath show_whole scenario_after_run (fun _ => CL_SUCCESS) 0 2 = Except.ok r
          ∧ r.path_dump_fd_ = some ["0:0.000000,1.000000,2.000000\n", "0:1.000000,2.000000,3.000000\n",
          "0:2.000000,3.000000,4.000000\n", "0:3.000000,4.000000,5.000000\n",
          "0:4.000000,5.000000,6.000000\n", "0:5.000000,6.000000,7.000000\n",
          "0:6.000000,7.000000,8.000000\n", "0:7.000000,8.000000,9.000000\n",
          "0:8.000000,9.000000,10.000000\n", "0:9.000000,10.000000,11.000000\n",
          "1:10.000000,11.000000,12.000000\n", "1:11.000000,12.000000,13.000000\n",
          "1:12.000000,13.000000,14.000000\n"])
      ∧ (DumpPath_slot show_whole scenario_after_run.attrs_.steps_per_kernel 0
            (Buffer.read ⟨37120, stale_memory.path⟩
              (0 * scenario_after_run.attrs_.steps_per_kernel))
            (scenario_after_run.gpu_step_count_.read 0) 0).length = 10 :=
  ⟨by decide, by decide, by decide, rfl, by decide, by decide, by decide, by decide,
    ⟨_, (C4_later_calls_dump_kept_positions show_whole scenario_after_run (fun _ => CL_SUCCESS)
      0 2 [] ⟨37120, stale_memory.path⟩ (by decide) (by decide) (by decide) rfl rfl rfl
      (by decide)).1, by decide⟩,
    (C4_later_calls_dump_kept_positions show_whole scenario_after_run (fun _ => CL_SUCCESS)
      0 2 [] ⟨37120, stale_memory.path⟩ (by decide) (by decide) (by decide) rfl rfl rfl
      (by decide)).2.2 0 (by decide) (by decide)⟩

theorem C5_first_call_writes_nothing_witness :
    (∀ k : Nat, (fun _ => CL_SUCCESS) k = CL_SUCCESS)
      ∧ scenario_handler.first_time_ = 1
      ∧ scenario_handler.env_dat_.save_paths = true
      ∧ scenario_handler.path_dump_fd_ = some []
      ∧ DumpPath show_whole scenario_handler (fun _ => CL_SUCCESS) 0 2
          = Except.ok { scenario_handler with first_time_ := 0 }
      ∧ ({ scenario_handler with first_time_ := 0 } : OclPtxHandler Int).path_dump_fd_
          = some [] :=
  ⟨fun _ => rfl, by decide, by decide, by decide,
    ((C5_first_call_writes_nothing 64 stale_memory blank_handler (fun _ => CL_SUCCESS)
      scenario_attrs (some []) 2 scenario_env ⟨0, fun _ => 0⟩ (fun _ => rfl) show_whole
      scenario_handler (by decide) (fun _ => CL_SUCCESS) 0 2).2.2.2 (by decide) []
        (by decide)).1,
    ((C5_first_call_writes_nothing 64 stale_memory blank_handler (fun _ => CL_SUCCESS)
      scenario_attrs (some []) 2 scenario_env ⟨0, fun _ => 0⟩ (fun _ => rfl) show_whole
      scenario_handler (by decide) (fun _ => CL_SUCCESS) 0 2).2.2.2 (by decide) []
        (by decide)).2.1⟩

/-! ## Writing a particle -/

theorem WriteParticle_ok {R : Type} [Zero R] (showf : R → String) (h : OclPtxHandler R)
    (dev_ret : Nat → cl_int) (data : particle_data R) (offset : Nat)
    (hoff : offset < 2 * h.attrs_.particles_per_side) (hdev : ∀ k, dev_ret k = CL_SUCCESS) :
    WriteParticle showf h dev_ret data offset
      = Except.ok { h with
          path_dump_fd_ :=
            h.path_dump_fd_.map (fun out => out ++ [seed_line showf offset data.position]),
          gpu_data_ := h.gpu_data_.write offset 1 (fun _ => data),
          gpu_complete_ := h.gpu_complete_.write offset 1 (fun _ => 0),
          gpu_step_count_ := h.gpu_step_count_.write offset 1 (fun _ => 0),
          gpu_loopcheck_ := h.gpu_loopcheck_.map (fun b =>
            b.write (offset * (h.attrs_.lx * h.attrs_.ly * h.attrs_.lz))
              (h.attrs_.lx * h.attrs_.ly * h.attrs_.lz) (fun _ => zero_f4)),
          gpu_waypoints_ := h.gpu_waypoints_.map (fun b =>
            b.write (offset * h.attrs_.n_waypoint_masks) h.attrs_.n_waypoint_masks
              (fun _ => 0)),
          gpu_exclusion_ := h.gpu_exclusion_.map (fun b => b.write offset 1 (fun _ => 0)) } := by
  rcases hl : h.gpu_loopcheck_ with _ | bl <;> rcases hw : h.gpu_waypoints_ with _ | bw <;>
    rcases hx : h.gpu_exclusion_ with _ | bx <;>
    simp [WriteParticle, hl, hw, hx, hoff, hdev, dev_check, bind, Except.bind, pure,
      Except.pure]

theorem slot_range_disjoint (E i k j : Nat) (hk : k ≠ i) (hj : j < E) :
    ¬ (i * E ≤ k * E + j ∧ k * E + j < i * E + E) := by
  rintro ⟨h1, h2⟩
  rcases Nat.lt_or_gt_of_ne hk with hlt | hgt
  · have := Nat.mul_le_mul_right E (Nat.succ_le_of_lt hlt)
    rw [Nat.succ_mul] at this
    omega
  · have := Nat.mul_le_mul_right E (Nat.succ_le_of_lt hgt)
    rw [Nat.succ_mul] at this
    omega

theorem slot_range_mem (E i j : Nat) (hj : j < E) :
    i * E ≤ i * E + j ∧ i * E + j < i * E + E := by
  omega


/-- The handlers `Init` returns have their optional buffers allocated exactly for the
enabled features. -/
theorem Init_optional_buffers {R : Type} (sizeof_particle_data : Nat) (fresh : FreshMemory R)
    (h : OclPtxHandler R) (dev_ret : Nat → cl_int) (attrs : particle_attrs)
    (path_dump_fd : Option (List String)) (wg_size : Nat) (env_dat : EnvironmentData)
    (global_pdf : Buffer Int) (r : OclPtxHandler R)
    (hr : Init sizeof_particle_data fresh h dev_ret attrs path_dump_fd wg_size env_dat
      global_pdf = Except.ok r) : optional_buffers_allocated r := by
  unfold optional_buffers_allocated
  simp only [Init, InitParticles, dev_check, bind, Except.bind, pure, Except.pure] at hr
  split_ifs at hr <;> (injection hr with hr; subst hr; simp_all)

/-- C6: for a slot index `i < 2 * particles_per_side`, any record and any prior device
state, with the device writes succeeding `WriteParticle(record, i)` returns a handler in
which slot `i` holds the record, completion code 0 and step counter 0, and in which, for
each enabled feature, the slot's loop-check history (`lx * ly * lz` entries), waypoint
bitmap (`n_waypoint_masks` entries) and exclusion flag are zero; the record, completion
code, step counter and optional state of every other slot are unchanged. -/
theorem C6_WriteParticle_resets_slot {R : Type} [Zero R] (showf : R → String)
    (h : OclPtxHandler R) (dev_ret : Nat → cl_int) (data : particle_data R) (i : Nat)
    (hi : i < 2 * h.attrs_.particles_per_side) (hdev : ∀ k, dev_ret k = CL_SUCCESS)
    (hwf : optional_buffers_allocated h) :
    ∃ h', WriteParticle showf h dev_ret data i = Except.ok h'
      ∧ h'.gpu_data_.mem i = data ∧ h'.gpu_complete_.mem i = 0 ∧ h'.gpu_step_count_.mem i = 0
      ∧ (h.env_dat_.loopcheck = true → ∃ b b', h.gpu_loopcheck_ = some b
          ∧ h'.gpu_loopcheck_ = some b'
          ∧ (∀ j, j < h.attrs_.lx * h.attrs_.ly * h.attrs_.lz →
              b'.mem (i * (h.attrs_.lx * h.attrs_.ly * h.attrs_.lz) + j) = zero_f4)
          ∧ (∀ k j, k ≠ i → j < h.attrs_.lx * h.attrs_.ly * h.attrs_.lz →
              b'.mem (k * (h.attrs_.lx * h.attrs_.ly * h.attrs_.lz) + j)
                = b.mem (k * (h.attrs_.lx * h.attrs_.ly * h.attrs_.lz) + j)))
      ∧ (0 < h.env_dat_.n_waypts → ∃ b b', h.gpu_waypoints_ = some b
          ∧ h'.gpu_waypoints_ = some b'
          ∧ (∀ j, j < h.attrs_.n_waypoint_masks →
              b'.mem (i * h.attrs_.n_waypoint_masks + j) = 0)
          ∧ (∀ k j, k ≠ i → j < h.attrs_.n_waypoint_masks →
              b'.mem (k * h.attrs_.n_waypoint_masks + j)
                = b.mem (k * h.attrs_.n_waypoint_masks + j)))
      ∧ (h.env_dat_.exclusion_mask = true → ∃ b b', h.gpu_exclusion_ = some b
          ∧ h'.gpu_exclusion_ = some b' ∧ b'.mem i = 0
          ∧ (∀ k, k ≠ i → b'.mem k = b.mem k))
      ∧ (∀ k, k ≠ i → h'.gpu_data_.mem k = h.gpu_data_.mem k
          ∧ h'.gpu_complete_.mem k = h.gpu_complete_.mem k
          ∧ h'.gpu_step_count_.mem k = h.gpu_step_count_.mem k) := by
  obtain ⟨_, hwp, hex, hlc⟩ := hwf
  refine ⟨_, WriteParticle_ok showf h dev_ret data i hi hdev, ?_, ?_, ?_, ?_, ?_, ?_, ?_⟩
  · simp [Buffer.write]
  · simp [Buffer.write]
  · simp [Buffer.write]
  · intro hflag
    rw [hflag] at hlc
    obtain ⟨b, hb⟩ := Option.isSome_iff_exists.mp hlc
    refine ⟨b, b.write (i * (h.attrs_.lx * h.attrs_.ly * h.attrs_.lz))
      (h.attrs_.lx * h.attrs_.ly * h.attrs_.lz) (fun _ => zero_f4), hb,
      by simp only [hb, Option.map_some'], ?_, ?_⟩
    · intro j hj
      simp only [Buffer.write]
      rw [if_pos (slot_range_mem _ i j hj)]
    · intro k j hk hj
      simp only [Buffer.write]
      rw [if_neg (slot_range_disjoint _ i k j hk hj)]
  · intro hflag
    rw [decide_eq_true hflag] at hwp
    obtain ⟨b, hb⟩ := Option.isSome_iff_exists.mp hwp
    refine ⟨b, b.write (i * h.attrs_.n_waypoint_masks) h.attrs_.n_waypoint_masks (fun _ => 0),
      hb, by simp only [hb, Option.map_some'], ?_, ?_⟩
    · intro j hj
      simp only [Buffer.write]
      rw [if_pos (slot_range_mem _ i j hj)]
    · intro k j hk hj
      simp only [Buffer.write]
      rw [if_neg (slot_range_disjoint _ i k j hk hj)]
  · intro hflag
    rw [hflag] at hex
    obtain ⟨b, hb⟩ := Option.isSome_iff_exists.mp hex
    refine ⟨b, b.write i 1 (fun _ => 0), hb, by simp only [hb, Option.map_some'], ?_, ?_⟩
    · simp [Buffer.write]
    · intro k hk
      simp only [Buffer.write]
      rw [if_neg (by omega)]
  · intro k hk
    simp only [Buffer.write]
    rw [if_neg (by omega), if_neg (by omega), if_neg (by omega)]
    exact ⟨rfl, rfl, rfl⟩

theorem C6_WriteParticle_resets_slot_witness :
    3 < 2 * full_handler.attrs_.particles_per_side
      ∧ (∀ k : Nat, (fun _ => CL_SUCCESS) k = CL_SUCCESS)
      ∧ optional_buffers_allocated full_handler
      ∧ full_handler.gpu_complete_.mem 3 = 8
      ∧ full_handler.gpu_step_count_.mem 3 = 7
      ∧ ∃ h', WriteParticle show_whole full_handler (fun _ => CL_SUCCESS) seed_record 3
            = Except.ok h'
          ∧ h'.gpu_data_.mem 3 = seed_record ∧ h'.gpu_complete_.mem 3 = 0
          ∧ h'.gpu_step_count_.mem 3 = 0 :=
  ⟨by decide, fun _ => rfl, ⟨by decide, by decide, by decide, by decide⟩, by decide, by decide,
    match C6_WriteParticle_resets_slot show_whole full_handler (fun _ => CL_SUCCESS)
        seed_record 3 (by decide) (fun _ => rfl)
        ⟨by decide, by decide, by decide, by decide⟩ with
    | ⟨h', hw, hd, hc, hs, _⟩ => ⟨h', hw, hd, hc, hs⟩⟩

/-- C7: the code departs from the form `slot_index:x,y,z` in `WriteParticle`. For the seed
at (1, 2, 3) written to slot 0 with an output file attached, the one text appended is
`0:1.000000,2.000000,3.000000n` followed by the line terminator, with a stray `n` before the
terminator, while `DumpPath` writes the same slot and position as
`0:1.000000,2.000000,3.000000` followed by the terminator. -/
theorem C7_seed_line_has_stray_character :
    (∃ h', WriteParticle show_whole full_handler (fun _ => CL_SUCCESS) seed_record 0
          = Except.ok h'
        ∧ h'.path_dump_fd_ = some ["0:1.000000,2.000000,3.000000n\n"])
      ∧ seed_line show_whole 0 seed_record.position = "0:1.000000,2.000000,3.000000n\n"
      ∧ path_line show_whole 0 seed_record.position = "0:1.000000,2.000000,3.000000\n"
      ∧ seed_line show_whole 0 seed_record.position
          ≠ path_line show_whole 0 seed_record.position :=
  ⟨⟨_, WriteParticle_ok show_whole full_handler (fun _ => CL_SUCCESS) seed_record 0
      (by decide) (fun _ => rfl), by decide⟩, by decide, by decide, by decide⟩

/-! ## Failures of device operations -/

theorem success_eq_iff (ret : cl_int) : (CL_SUCCESS = ret) ↔ (ret = CL_SUCCESS) := eq_comm

theorem WriteParticle_fatal {R : Type} [Zero R] (showf : R → String) (h : OclPtxHandler R)
    (dev_ret : Nat → cl_int) (data : particle_data R) (offset : Nat)
    (hoff : offset < 2 * h.attrs_.particles_per_side) :
    fatal_on_first_failure (WriteParticle_statuses h dev_ret)
      (WriteParticle showf h dev_ret data offset) := by
  unfold fatal_on_first_failure first_failure WriteParticle_statuses
  by_cases h0 : dev_ret 0 = CL_SUCCESS
  swap
  · simp [WriteParticle, hoff, h0, success_eq_iff, dev_check, bind, Except.bind, pure,
      Except.pure]
  by_cases h1 : dev_ret 1 = CL_SUCCESS
  swap
  · simp [WriteParticle, hoff, h0, h1, success_eq_iff, dev_check, bind, Except.bind, pure,
      Except.pure]
  by_cases h2 : dev_ret 2 = CL_SUCCESS
  swap
  · simp [WriteParticle, hoff, h0, h1, h2, success_eq_iff, dev_check, bind, Except.bind, pure,
      Except.pure]
  rcases hl : h.gpu_loopcheck_ with _ | bl <;> rcases hw : h.gpu_waypoints_ with _ | bw <;>
    rcases hx : h.gpu_exclusion_ with _ | bx <;>
    by_cases h3 : dev_ret 3 = CL_SUCCESS <;> by_cases h4 : dev_ret 4 = CL_SUCCESS <;>
    by_cases h5 : dev_ret 5 = CL_SUCCESS <;>
    simp [WriteParticle, hoff, h0, h1, h2, h3, h4, h5, hl, hw, hx, success_eq_iff,
      dev_check, bind, Except.bind, pure, Except.pure]


theorem two_calls_fatal {α : Type} (r0 r1 : cl_int) (a : α) :
    fatal_on_first_failure [r0, r1]
      (dev_check r0 >>= fun _ => dev_check r1 >>= fun _ => (pure a : Except Termination α)) := by
  unfold fatal_on_first_failure first_failure
  by_cases h0 : r0 = CL_SUCCESS <;> by_cases h1 : r1 = CL_SUCCESS <;>
    simp [h0, h1, success_eq_iff, dev_check, bind, Except.bind, pure, Except.pure]

theorem RunInterpKernel_fatal {R : Type}
    (ptx_kernel : OclPtxHandler R → Nat → OclPtxHandler R) (h : OclPtxHandler R)
    (dev_ret : Nat → cl_int) (side : Nat) :
    fatal_on_first_failure [dev_ret 0, dev_ret 1] (RunInterpKernel ptx_kernel h dev_ret side) :=
  two_calls_fatal (dev_ret 0) (dev_ret 1) _

theorem RunSumKernel_fatal {R : Type} (sum_kernel : OclPtxHandler R → OclPtxHandler R)
    (h : OclPtxHandler R) (dev_ret : Nat → cl_int) :
    fatal_on_first_failure [dev_ret 0, dev_ret 1] (RunSumKernel sum_kernel h dev_ret) :=
  two_calls_fatal (dev_ret 0) (dev_ret 1) _

theorem ReadStatus_fatal {R : Type} (h : OclPtxHandler R) (dev_ret : Nat → cl_int)
    (offset count : Nat) (ret : Nat → Nat) :
    fatal_on_first_failure [dev_ret 0] (ReadStatus h dev_ret offset count ret) := by
  unfold fatal_on_first_failure first_failure ReadStatus
  by_cases h0 : dev_ret 0 = CL_SUCCESS <;>
    simp [h0, success_eq_iff, dev_check, bind, Except.bind, pure, Except.pure]

theorem DumpPath_fatal {R : Type} (showf : R → String) (h : OclPtxHandler R)
    (dev_ret : Nat → cl_int) (offset count : Nat) (fd : List String)
    (gpu_path : Buffer (cl_float4 R)) (hsave : h.env_dat_.save_paths = true)
    (hfd : h.path_dump_fd_ = some fd) (hfirst : h.first_time_ = 0)
    (hpath : h.gpu_path_ = some gpu_path) :
    fatal_on_first_failure [dev_ret 0, dev_ret 1] (DumpPath showf h dev_ret offset count) := by
  unfold fatal_on_first_failure first_failure
  by_cases h0 : dev_ret 0 = CL_SUCCESS <;> by_cases h1 : dev_ret 1 = CL_SUCCESS <;>
    simp [DumpPath, hsave, hfd, hfirst, hpath, h0, h1, success_eq_iff, dev_check, bind,
      Except.bind, pure, Except.pure]

theorem Init_fatal {R : Type} (sizeof_particle_data : Nat) (fresh : FreshMemory R)
    (h : OclPtxHandler R) (dev_ret : Nat → cl_int) (attrs : particle_attrs)
    (path_dump_fd : Option (List String)) (wg_size : Nat) (env_dat : EnvironmentData)
    (global_pdf : Buffer Int) :
    fatal_on_first_failure [dev_ret 0, dev_ret 1]
      (Init sizeof_particle_data fresh h dev_ret attrs path_dump_fd wg_size env_dat
        global_pdf) := by
  have hle : wg_size * (env_dat.dynamic_mem_left
      / ParticleSize sizeof_particle_data attrs wg_size env_dat / wg_size / 2)
      ≤ env_dat.dynamic_mem_left / ParticleSize sizeof_particle_data attrs wg_size env_dat :=
    le_trans (Nat.mul_le_mul_left _ (Nat.div_le_self _ _)) (Nat.mul_div_le _ _)
  unfold fatal_on_first_failure first_failure
  by_cases h0 : dev_ret 0 = CL_SUCCESS <;> by_cases h1 : dev_ret 1 = CL_SUCCESS <;>
    simp [Init, InitParticles, hle, h0, h1, success_eq_iff, dev_check, bind, Except.bind,
      pure, Except.pure]

theorem die_cases (ret : cl_int) :
    (ret = CL_MEM_OBJECT_ALLOCATION_FAILURE → die ret = Termination.exit memrisk_message (-1))
      ∧ (ret ≠ CL_MEM_OBJECT_ALLOCATION_FAILURE → die ret = Termination.abort ret) := by
  unfold die
  constructor
  · intro h; rw [if_pos h.symm]
  · intro h; rw [if_neg (fun e => h e.symm)]

/-- C8, as stated, fails: when the first device write of `WriteParticle` returns
`CL_MEM_OBJECT_ALLOCATION_FAILURE`, a status other than `CL_SUCCESS`, the handler does not
abort but prints the memrisk message and exits with status -1. -/
theorem C8_guided_exit_outside_Init :
    CL_MEM_OBJECT_ALLOCATION_FAILURE ≠ CL_SUCCESS
      ∧ 0 < 2 * full_handler.attrs_.particles_per_side
      ∧ WriteParticle show_whole full_handler (fun _ => CL_MEM_OBJECT_ALLOCATION_FAILURE)
          seed_record 0 = Except.error (Termination.exit memrisk_message (-1))
      ∧ Termination.exit memrisk_message (-1)
          ≠ Termination.abort CL_MEM_OBJECT_ALLOCATION_FAILURE := by
  refine ⟨by decide, by decide, ?_, by simp⟩
  have h := WriteParticle_fatal show_whole full_handler
    (fun _ => CL_MEM_OBJECT_ALLOCATION_FAILURE) seed_record 0 (by decide)
  exact h

/-- C8, amended: in `WriteParticle`, `RunInterpKernel`, `RunSumKernel`, `ReadStatus`,
`DumpPath` and `Init`/`InitParticles` alike, the first device operation that returns a
status other than `CL_SUCCESS` ends the process through `die`, and otherwise the operation
returns; `die` aborts for every status except `CL_MEM_OBJECT_ALLOCATION_FAILURE`, for which,
whichever operation it comes from, it prints the message advising to lower memrisk and
exits with status -1. -/
theorem C8_device_failures_end_in_die (R : Type) [Zero R] :
    (∀ ret : cl_int,
        (ret = CL_MEM_OBJECT_ALLOCATION_FAILURE →
          die ret = Termination.exit memrisk_message (-1))
        ∧ (ret ≠ CL_MEM_OBJECT_ALLOCATION_FAILURE → die ret = Termination.abort ret))
      ∧ (∀ (showf : R → String) (h : OclPtxHandler R) (dev_ret : Nat → cl_int)
          (data : particle_data R) (offset : Nat),
          offset < 2 * h.attrs_.particles_per_side →
          fatal_on_first_failure (WriteParticle_statuses h dev_ret)
            (WriteParticle showf h dev_ret data offset))
      ∧ (∀ (ptx_kernel : OclPtxHandler R → Nat → OclPtxHandler R) (h : OclPtxHandler R)
          (dev_ret : Nat → cl_int) (side : Nat),
          fatal_on_first_failure [dev_ret 0, dev_ret 1]
            (RunInterpKernel ptx_kernel h dev_ret side))
      ∧ (∀ (sum_kernel : OclPtxHandler R → OclPtxHandler R) (h : OclPtxHandler R)
          (dev_ret : Nat → cl_int),
          fatal_on_first_failure [dev_ret 0, dev_ret 1] (RunSumKernel sum_kernel h dev_ret))
      ∧ (∀ (h : OclPtxHandler R) (dev_ret : Nat → cl_int) (offset count : Nat)
          (ret : Nat → Nat),
          fatal_on_first_failure [dev_ret 0] (ReadStatus h dev_ret offset count ret))
      ∧ (∀ (showf : R → String) (h : OclPtxHandler R) (dev_ret : Nat → cl_int)
          (offset count : Nat) (fd : List String) (gpu_path : Buffer (cl_float4 R)),
          h.env_dat_.save_paths = true → h.path_dump_fd_ = some fd → h.first_time_ = 0 →
          h.gpu_path_ = some gpu_path →
          fatal_on_first_failure [dev_ret 0, dev_ret 1]
            (DumpPath showf h dev_ret offset count))
      ∧ (∀ (sizeof_particle_data : Nat) (fresh : FreshMemory R) (h : OclPtxHandler R)
          (dev_ret : Nat → cl_int) (attrs : particle_attrs)
          (path_dump_fd : Option (List String)) (wg_size : Nat) (env_dat : EnvironmentData)
          (global_pdf : Buffer Int),
          fatal_on_first_failure [dev_ret 0, dev_ret 1]
            (Init sizeof_particle_data fresh h dev_ret attrs path_dump_fd wg_size env_dat
              global_pdf)) :=
  ⟨die_cases, WriteParticle_fatal, RunInterpKernel_fatal, RunSumKernel_fatal,
    ReadStatus_fatal, DumpPath_fatal, Init_fatal⟩

theorem C8_device_failures_end_in_die_witness :
    0 < 2 * full_handler.attrs_.particles_per_side
      ∧ WriteParticle show_whole full_handler (fun k => if k = 1 then -5 else CL_SUCCESS)
          seed_record 0 = Except.error (Termination.abort (-5))
      ∧ WriteParticle show_whole full_handler (fun k => if k = 4 then -4 else CL_SUCCESS)
          seed_record 0 = Except.error (Termination.exit memrisk_message (-1)) :=
  ⟨by decide,
    by
      have h := (C8_device_failures_end_in_die Int).2.1 show_whole full_handler
        (fun k => if k = 1 then -5 else CL_SUCCESS) seed_record 0 (by decide)
      exact h,
    by
      have h := (C8_device_failures_end_in_die Int).2.1 show_whole full_handler
        (fun k => if k = 4 then -4 else CL_SUCCESS) seed_record 0 (by decide)
      exact h⟩

/-! ## The footprint under changes of the configuration -/

/-- C9: for two budgets `B1 ≤ B2` and the same attributes, workgroup size `w ≥ 1` and
feature flags, when the device operations succeed `Init` returns for both, with
`num_wg = (B / F) / w / 2` and `particles_per_side = w * num_wg`, and the
`particles_per_side` computed from `B1` is at most the one computed from `B2`. -/
theorem C9_budget_monotone {R : Type} (sizeof_particle_data : Nat)
    (fresh1 fresh2 : FreshMemory R) (h1 h2 : OclPtxHandler R) (dev_ret1 dev_ret2 : Nat → cl_int)
    (attrs : particle_attrs) (path_dump_fd : Option (List String)) (wg_size : Nat)
    (env_dat : EnvironmentData) (global_pdf : Buffer Int) (B1 B2 : Nat) (_hw : 1 ≤ wg_size)
    (hB : B1 ≤ B2) (hdev1 : ∀ k, dev_ret1 k = CL_SUCCESS)
    (hdev2 : ∀ k, dev_ret2 k = CL_SUCCESS) :
    ∃ r1 r2,
      Init sizeof_particle_data fresh1 h1 dev_ret1 attrs path_dump_fd wg_size
          { env_dat with dynamic_mem_left := B1 } global_pdf = Except.ok r1
      ∧ Init sizeof_particle_data fresh2 h2 dev_ret2 attrs path_dump_fd wg_size
          { env_dat with dynamic_mem_left := B2 } global_pdf = Except.ok r2
      ∧ r1.attrs_.num_wg
          = B1 / ParticleSize sizeof_particle_data attrs wg_size env_dat / wg_size / 2
      ∧ r2.attrs_.num_wg
          = B2 / ParticleSize sizeof_particle_data attrs wg_size env_dat / wg_size / 2
      ∧ r1.attrs_.particles_per_side = wg_size * r1.attrs_.num_wg
      ∧ r2.attrs_.particles_per_side = wg_size * r2.attrs_.num_wg
      ∧ r1.attrs_.particles_per_side ≤ r2.attrs_.particles_per_side := by
  obtain ⟨r1, hI1, ha1, _⟩ := Init_ok sizeof_particle_data fresh1 h1 dev_ret1 attrs
    path_dump_fd wg_size { env_dat with dynamic_mem_left := B1 } global_pdf hdev1
  obtain ⟨r2, hI2, ha2, _⟩ := Init_ok sizeof_particle_data fresh2 h2 dev_ret2 attrs
    path_dump_fd wg_size { env_dat with dynamic_mem_left := B2 } global_pdf hdev2
  have hF : ∀ B, ParticleSize sizeof_particle_data attrs wg_size
      { env_dat with dynamic_mem_left := B }
      = ParticleSize sizeof_particle_data attrs wg_size env_dat := fun _ => rfl
  rw [hF] at ha1 ha2
  refine ⟨r1, r2, hI1, hI2, by rw [ha1], by rw [ha2], by rw [ha1], by rw [ha2], ?_⟩
  rw [ha1, ha2]
  exact Nat.mul_le_mul_left _ (Nat.div_le_div_right (Nat.div_le_div_right
    (Nat.div_le_div_right hB)))

theorem C9_budget_monotone_witness :
    1 ≤ 2 ∧ 5000 ≤ 100000 ∧ (∀ k : Nat, (fun _ => CL_SUCCESS) k = CL_SUCCESS) ∧
    ∃ r1 r2,
      Init 64 zero_memory blank_handler (fun _ => CL_SUCCESS) scenario_attrs (some []) 2
          { scenario_env with dynamic_mem_left := 5000 } ⟨0, fun _ => 0⟩ = Except.ok r1
      ∧ Init 64 zero_memory blank_handler (fun _ => CL_SUCCESS) scenario_attrs (some []) 2
          { scenario_env with dynamic_mem_left := 100000 } ⟨0, fun _ => 0⟩ = Except.ok r2
      ∧ r1.attrs_.num_wg = 5000 / ParticleSize 64 scenario_attrs 2 scenario_env / 2 / 2
      ∧ r2.attrs_.num_wg = 100000 / ParticleSize 64 scenario_attrs 2 scenario_env / 2 / 2
      ∧ r1.attrs_.particles_per_side = 2 * r1.attrs_.num_wg
      ∧ r2.attrs_.particles_per_side = 2 * r2.attrs_.num_wg
      ∧ r1.attrs_.particles_per_side ≤ r2.attrs_.particles_per_side :=
  ⟨by decide, by decide, fun _ => rfl,
    C9_budget_monotone 64 zero_memory zero_memory blank_handler blank_handler
      (fun _ => CL_SUCCESS) (fun _ => CL_SUCCESS) scenario_attrs (some []) 2 scenario_env
      ⟨0, fun _ => 0⟩ 5000 100000 (by decide) (by decide) (fun _ => rfl) (fun _ => rfl)⟩

/-- C10: with every other parameter fixed, enabling path dumping adds exactly
`steps_per_kernel * 16` bytes to the footprint, a waypoint count going from 0 to a positive
value adds exactly `n_waypoint_masks * 2` bytes, and enabling loop-check adds exactly
`lx * ly * lz * 16` bytes. -/
theorem C10_feature_terms (sizeof_particle_data : Nat) (attrs_ : particle_attrs)
    (wg_size_ : Nat) (env_dat_ : EnvironmentData) :
    ParticleSize sizeof_particle_data attrs_ wg_size_ { env_dat_ with save_paths := true }
        = ParticleSize sizeof_particle_data attrs_ wg_size_ { env_dat_ with save_paths := false }
          + attrs_.steps_per_kernel * 16
      ∧ (∀ n, 0 < n →
          ParticleSize sizeof_particle_data attrs_ wg_size_ { env_dat_ with n_waypts := n }
            = ParticleSize sizeof_particle_data attrs_ wg_size_ { env_dat_ with n_waypts := 0 }
              + attrs_.n_waypoint_masks * 2)
      ∧ ParticleSize sizeof_particle_data attrs_ wg_size_ { env_dat_ with loopcheck := true }
        = ParticleSize sizeof_particle_data attrs_ wg_size_ { env_dat_ with loopcheck := false }
          + attrs_.lx * attrs_.ly * attrs_.lz * 16 := by
  refine ⟨?_, ?_, ?_⟩
  · simp only [ParticleSize]
    split_ifs <;> simp_all <;> omega
  · intro n hn
    simp only [ParticleSize]
    split_ifs <;> simp_all <;> omega
  · simp only [ParticleSize]
    split_ifs <;> simp_all

theorem C10_feature_terms_witness :
    ParticleSize 64 { scenario_attrs with n_waypoint_masks := 3, lx := 2, ly := 2, lz := 2 } 2
        { scenario_env with n_waypts := 3 } = 430
      ∧ ParticleSize 64 { scenario_attrs with n_waypoint_masks := 3, lx := 2, ly := 2, lz := 2 }
          2 { scenario_env with n_waypts := 3 }
        = ParticleSize 64 { scenario_attrs with n_waypoint_masks := 3, lx := 2, ly := 2, lz := 2 }
            2 { scenario_env with n_waypts := 0 } + 3 * 2 :=
  ⟨by decide,
    (C10_feature_terms 64 { scenario_attrs with n_waypoint_masks := 3, lx := 2, ly := 2, lz := 2 }
      2 scenario_env).2.1 3 (by decide)⟩

/-! ## Buffers: sizes, total and release -/

theorem ParticleSize_eq_listed_add (sizeof_particle_data : Nat) (attrs_ : particle_attrs)
    (wg_size_ : Nat) (env_dat_ : EnvironmentData) :
    ParticleSize sizeof_particle_data attrs_ wg_size_ env_dat_
      = footprint_listed sizeof_particle_data attrs_ env_dat_
        + ((attrs_.sample_nx * attrs_.sample_ny * attrs_.sample_nz / wg_size_ / 2) + 1) * 4 := by
  simp only [ParticleSize, footprint_listed]
  split_ifs <;> omega

theorem accumulator_share_covers (V w N : Nat) (hw : 1 ≤ w) :
    V * N * 4 ≤ 2 * (w * N) * ((V / w / 2) + 1) * 4 := by
  have h1 : V < w * 2 * (V / (w * 2) + 1) := Nat.lt_mul_div_succ V (by omega)
  rw [Nat.div_div_eq_div_mul]
  calc V * N * 4 ≤ w * 2 * (V / (w * 2) + 1) * N * 4 :=
        Nat.mul_le_mul_right _ (Nat.mul_le_mul_right _ h1.le)
    _ = 2 * (w * N) * (V / (w * 2) + 1) * 4 := by ring

/-- With every device operation succeeding, `Init` returns, and the handler it returns has
the sizing members and the buffer sizes that `Init` and `InitParticles` compute. -/
theorem Init_sizes {R : Type} (sizeof_particle_data : Nat) (fresh : FreshMemory R)
    (h : OclPtxHandler R) (dev_ret : Nat → cl_int) (attrs : particle_attrs)
    (path_dump_fd : Option (List String)) (wg_size : Nat) (env_dat : EnvironmentData)
    (global_pdf : Buffer Int) (hdev : ∀ k, dev_ret k = CL_SUCCESS) :
    ∃ h', Init sizeof_particle_data fresh h dev_ret attrs path_dump_fd wg_size env_dat
        global_pdf = Except.ok h'
      ∧ h'.attrs_.num_wg = env_dat.dynamic_mem_left
          / ParticleSize sizeof_particle_data attrs wg_size env_dat / wg_size / 2
      ∧ h'.attrs_.particles_per_side = wg_size * h'.attrs_.num_wg
      ∧ h'.gpu_data_.size = 2 * h'.attrs_.particles_per_side * sizeof_particle_data
      ∧ h'.gpu_sets_.size = 2 * h'.attrs_.particles_per_side * rbtree_size attrs
      ∧ h'.gpu_complete_.size = 2 * h'.attrs_.particles_per_side * 2
      ∧ h'.gpu_local_pdf_.size
          = attrs.sample_nx * attrs.sample_ny * attrs.sample_nz * h'.attrs_.num_wg * 4
      ∧ optional_size h'.gpu_path_
          = (if env_dat.save_paths then
              2 * h'.attrs_.particles_per_side * attrs.steps_per_kernel * 16 else 0)
      ∧ h'.gpu_step_count_.size = 2 * h'.attrs_.particles_per_side * 2
      ∧ optional_size h'.gpu_waypoints_
          = (if 0 < env_dat.n_waypts then
              2 * h'.attrs_.particles_per_side * attrs.n_waypoint_masks * 2 else 0)
      ∧ optional_size h'.gpu_exclusion_
          = (if env_dat.exclusion_mask then 2 * h'.attrs_.particles_per_side * 2 else 0)
      ∧ optional_size h'.gpu_loopcheck_
          = (if env_dat.loopcheck then
              2 * h'.attrs_.particles_per_side * attrs.lx * attrs.ly * attrs.lz * 16
             else 0) := by
  have hle : wg_size * (env_dat.dynamic_mem_left
      / ParticleSize sizeof_particle_data attrs wg_size env_dat / wg_size / 2)
      ≤ env_dat.dynamic_mem_left / ParticleSize sizeof_particle_data attrs wg_size env_dat :=
    le_trans (Nat.mul_le_mul_left _ (Nat.div_le_self _ _)) (Nat.mul_div_le _ _)
  refine ⟨_, by
    simp only [Init, InitParticles, dev_check, hdev, hle, bind, Except.bind, pure, Except.pure,
      ne_eq, not_true_eq_false, if_false, not_not, if_true]
    rfl, ?_⟩
  refine ⟨rfl, rfl, rfl, ?_, rfl, rfl, ?_, rfl, ?_, ?_, ?_⟩
  · simp only [rbtree_size, rbtree_raw_size, Buffer.write]
  · simp only [optional_size]; split_ifs <;> rfl
  · simp only [optional_size]; split_ifs <;> rfl
  · simp only [optional_size]; split_ifs <;> rfl
  · simp only [optional_size]; split_ifs <;> rfl


/-- C11: the destructor does not release every buffer that `InitParticles` creates. With all
features enabled, `InitParticles` creates nine buffers and the destructor deletes seven of
them: the step counters `gpu_step_count_` and the paths `gpu_path_` are never deleted. The
global density buffer `gpu_global_pdf_`, which the handler does not own, is not deleted. -/
theorem C11_destructor_misses_two_buffers :
    InitParticles_created full_handler.env_dat_
        = [BufferMember.gpu_data_, BufferMember.gpu_sets_, BufferMember.gpu_complete_,
            BufferMember.gpu_local_pdf_, BufferMember.gpu_path_, BufferMember.gpu_step_count_,
            BufferMember.gpu_waypoints_, BufferMember.gpu_exclusion_,
            BufferMember.gpu_loopcheck_]
      ∧ full_handler.gpu_path_.isSome = true
      ∧ destructor full_handler
        = [BufferMember.gpu_data_, BufferMember.gpu_sets_, BufferMember.gpu_complete_,
            BufferMember.gpu_local_pdf_, BufferMember.gpu_waypoints_,
            BufferMember.gpu_exclusion_, BufferMember.gpu_loopcheck_]
      ∧ BufferMember.gpu_step_count_ ∈ InitParticles_created full_handler.env_dat_
      ∧ BufferMember.gpu_step_count_ ∉ destructor full_handler
      ∧ BufferMember.gpu_path_ ∈ InitParticles_created full_handler.env_dat_
      ∧ BufferMember.gpu_path_ ∉ destructor full_handler
      ∧ BufferMember.gpu_global_pdf_ ∉ destructor full_handler := by
  decide

/-- C12: for `max_steps ≥ 1`, with `r = max_steps * 8 + 2 * ceil(log2(max_steps)) * 2 * 2
+ 2 * 2` the raw size, where `ceil(log2(max_steps))` is the least `k` with
`max_steps ≤ 2 ^ k`, the result of `rbtree_size` is a multiple of 16, is at least `r` and is
less than `r + 16`; a raw size that is a multiple of 16 is returned unchanged. -/
theorem C12_rbtree_size_rounds_up (attrs_ : particle_attrs) (_h1 : 1 ≤ attrs_.max_steps) :
    rbtree_raw_size attrs_
        = attrs_.max_steps * 8 + 2 * Nat.clog 2 attrs_.max_steps * 2 * 2 + 2 * 2
      ∧ attrs_.max_steps ≤ 2 ^ Nat.clog 2 attrs_.max_steps
      ∧ (∀ j, j < Nat.clog 2 attrs_.max_steps → 2 ^ j < attrs_.max_steps)
      ∧ 16 ∣ rbtree_size attrs_
      ∧ rbtree_raw_size attrs_ ≤ rbtree_size attrs_
      ∧ rbtree_size attrs_ < rbtree_raw_size attrs_ + 16
      ∧ (16 ∣ rbtree_raw_size attrs_ → rbtree_size attrs_ = rbtree_raw_size attrs_) := by
  have hspec := ceil_log2_from_spec attrs_.max_steps 0 attrs_.max_steps
    (by intro j hj; omega) (by rw [Nat.zero_add]; exact (Nat.lt_two_pow _).le)
  have hc : ceil_log2 attrs_.max_steps = Nat.clog 2 attrs_.max_steps := ceil_log2_eq_clog _
  have hfrom : ceil_log2_from attrs_.max_steps 0 attrs_.max_steps
      = Nat.clog 2 attrs_.max_steps := hc
  rw [hfrom] at hspec
  have hpos := rbtree_raw_size_pos attrs_
  refine ⟨by simp only [rbtree_raw_size, hc], hspec.1, hspec.2, ?_, ?_, ?_, ?_⟩
  · simp only [rbtree_size]; omega
  · simp only [rbtree_size]; omega
  · simp only [rbtree_size]; omega
  · intro hd
    simp only [rbtree_size]; omega

theorem C12_rbtree_size_rounds_up_witness :
    1 ≤ scenario_attrs.max_steps
      ∧ scenario_attrs.max_steps = 10
      ∧ rbtree_raw_size scenario_attrs = 116
      ∧ rbtree_size scenario_attrs = 128
      ∧ 16 ∣ rbtree_size scenario_attrs
      ∧ rbtree_raw_size scenario_attrs ≤ rbtree_size scenario_attrs
      ∧ rbtree_size scenario_attrs < rbtree_raw_size scenario_attrs + 16 :=
  ⟨by decide, by decide, by decide, by decide,
    (C12_rbtree_size_rounds_up scenario_attrs (by decide)).2.2.2.1,
    (C12_rbtree_size_rounds_up scenario_attrs (by decide)).2.2.2.2.1,
    (C12_rbtree_size_rounds_up scenario_attrs (by decide)).2.2.2.2.2.1⟩

/-- C13: for every budget `B`, workgroup size `w ≥ 1`, volume dimensions and feature flags,
when the device operations succeed `Init` returns a handler for which the sizes of all the
buffers `InitParticles` creates add up to
`2 * particles_per_side * (sizeof(particle_data) + 2 + 2 + rbtree_size + enabled optional
terms) + nx * ny * nz * num_wg * 4`, the accumulator `nx * ny * nz * num_wg * 4` is at most
`2 * particles_per_side * ((nx * ny * nz / w / 2) + 1) * 4`, and the total is at most `B`. -/
theorem C13_allocation_within_budget {R : Type} (sizeof_particle_data : Nat)
    (fresh : FreshMemory R) (h : OclPtxHandler R) (dev_ret : Nat → cl_int)
    (attrs : particle_attrs) (path_dump_fd : Option (List String)) (wg_size : Nat)
    (env_dat : EnvironmentData) (global_pdf : Buffer Int) (hw : 1 ≤ wg_size)
    (hdev : ∀ k, dev_ret k = CL_SUCCESS) :
    ∃ h', Init sizeof_particle_data fresh h dev_ret attrs path_dump_fd wg_size env_dat
        global_pdf = Except.ok h'
      ∧ h'.attrs_.num_wg = env_dat.dynamic_mem_left
          / ParticleSize sizeof_particle_data attrs wg_size env_dat / wg_size / 2
      ∧ h'.attrs_.particles_per_side = wg_size * h'.attrs_.num_wg
      ∧ allocated_bytes h'
          = 2 * h'.attrs_.particles_per_side
              * (sizeof_particle_data + 2 + 2 + rbtree_size attrs
                + (if env_dat.save_paths then attrs.steps_per_kernel * 16 else 0)
                + (if 0 < env_dat.n_waypts then attrs.n_waypoint_masks * 2 else 0)
                + (if env_dat.exclusion_mask then 2 else 0)
                + (if env_dat.loopcheck then attrs.lx * attrs.ly * attrs.lz * 16 else 0))
            + attrs.sample_nx * attrs.sample_ny * attrs.sample_nz * h'.attrs_.num_wg * 4
      ∧ attrs.sample_nx * attrs.sample_ny * attrs.sample_nz * h'.attrs_.num_wg * 4
          ≤ 2 * h'.attrs_.particles_per_side
              * ((attrs.sample_nx * attrs.sample_ny * attrs.sample_nz / wg_size / 2) + 1) * 4
      ∧ allocated_bytes h' ≤ env_dat.dynamic_mem_left := by
  obtain ⟨h', hI, hnum, hpps, hd, hs, hc, hl, hp, hsc, hwp, hex, hlc⟩ :=
    Init_sizes sizeof_particle_data fresh h dev_ret attrs path_dump_fd wg_size env_dat
      global_pdf hdev
  have hacc := accumulator_share_covers (attrs.sample_nx * attrs.sample_ny * attrs.sample_nz)
    wg_size h'.attrs_.num_wg hw
  rw [← hpps] at hacc
  have htotal : allocated_bytes h'
      = 2 * h'.attrs_.particles_per_side
          * footprint_listed sizeof_particle_data attrs env_dat
        + attrs.sample_nx * attrs.sample_ny * attrs.sample_nz * h'.attrs_.num_wg * 4 := by
    simp only [allocated_bytes, hd, hs, hc, hl, hp, hsc, hwp, hex, hlc, footprint_listed]
    split_ifs <;> ring
  have hbudget : 2 * h'.attrs_.particles_per_side
      * ParticleSize sizeof_particle_data attrs wg_size env_dat ≤ env_dat.dynamic_mem_left := by
    rw [hpps, hnum]
    exact budget_arith _ _ _
  rw [ParticleSize_eq_listed_add, Nat.mul_add] at hbudget
  refine ⟨h', hI, hnum, hpps, ?_, hacc, ?_⟩
  · rw [htotal]; rfl
  · rw [htotal]
    have e : 2 * h'.attrs_.particles_per_side
        * (((attrs.sample_nx * attrs.sample_ny * attrs.sample_nz / wg_size / 2) + 1) * 4)
        = 2 * h'.attrs_.particles_per_side
          * ((attrs.sample_nx * attrs.sample_ny * attrs.sample_nz / wg_size / 2) + 1) * 4 := by
      ring
    rw [e] at hbudget
    omega

theorem C13_allocation_within_budget_witness :
    1 ≤ 2 ∧ (∀ k : Nat, (fun _ => CL_SUCCESS) k = CL_SUCCESS)
      ∧ allocated_bytes full_handler = 97856
      ∧ full_env.dynamic_mem_left = 100000
      ∧ ∃ h', Init 64 stale_memory blank_handler (fun _ => CL_SUCCESS) full_attrs (some []) 2
            full_env ⟨0, fun _ => 0⟩ = Except.ok h'
          ∧ allocated_bytes h' ≤ full_env.dynamic_mem_left :=
  ⟨by decide, fun _ => rfl, by decide, by decide,
    match C13_allocation_within_budget 64 stale_memory blank_handler (fun _ => CL_SUCCESS)
        full_attrs (some []) 2 full_env ⟨0, fun _ => 0⟩ (by decide) (fun _ => rfl) with
    | ⟨h', hI, _, _, _, _, hb⟩ => ⟨h', hI, hb⟩⟩

end OclPtx
